import Mathlib

/-!
Verification of the mabel compiler front end (lexer, Pratt parser, semantic
checker) against its natural-language specification.

The development shallowly embeds the Rust sources:
  * `src/parser/span.rs`   — `Position`, `Span`, `Location`
  * `src/parser/token.rs`  — `TokenKind`, `Token`
  * `src/parser/lexer.rs`  — `Lexer::tokenize` and helpers
  * `src/parser/ast.rs`    — raw AST nodes and `Value`
  * `src/parser/mod.rs`    — `Parser::parse` (Pratt parsing, literal resolution)
  * `src/compiler/data_type.rs`     — the numeric type lattice
  * `src/compiler/annotated_ast.rs` — annotated AST nodes
  * `src/compiler/semantic_checker.rs` — `SemanticChecker::check`

Modelling conventions, uniform across the file:
  * Source text enters the lexer as its list of extended grapheme clusters
    (the Rust code precomputes exactly this list with the external
    `unicode_segmentation` crate); each grapheme is a Lean `String`.  The
    source byte string is the UTF-8 concatenation of the graphemes, modelled
    as `List Nat` of byte values, and byte offsets index into it, matching
    the Rust `Position.offset` / `str` byte slicing discipline.
  * Unicode character classes used by the code (`char::is_whitespace`,
    `XID_Start`, `XID_Continue`) live in external tables; `is_whitespace`
    is embedded in full (the White_Space property is 25 code points), the
    XID classes are embedded on their ASCII fragment.
  * Rust panics (`unwrap` on `None`/`Err`, out-of-range `Vec`/`str`
    indexing) are modelled by an explicit `panic` outcome; Rust `Result`
    errors by an `err` outcome.
  * Human-readable diagnostic `message`/`hint` strings are produced through
    the external localization catalog (`t!` macro) and are not modelled;
    diagnostics keep their error `code`, label structure and locations.
  * IEEE float payloads of `Value::Float32`/`Value::Double` cannot be
    shallowly embedded; the model carries the numeric lexeme bytes that the
    Rust code would pass to `str::parse::<f32/f64>` (which never fails on
    lexer-produced numeric text).  No claim inspects a float payload.
  * Loops and recursion that Rust runs unboundedly are given explicit fuel;
    fuel exhaustion is a distinct `outOfFuel` outcome so that it can never
    be mistaken for a result, an error, or a panic.
-/

namespace Mabel

/-! ## UTF-8 bytes of Lean strings (for `str` byte offsets and slicing) -/

/-- UTF-8 encoding of one scalar value, as byte values. -/
def utf8Bytes (c : Char) : List Nat :=
  let n := c.toNat
  if n < 0x80 then [n]
  else if n < 0x800 then [0xC0 + n / 64, 0x80 + n % 64]
  else if n < 0x10000 then
    [0xE0 + n / 4096, 0x80 + n / 64 % 64, 0x80 + n % 64]
  else
    [0xF0 + n / 262144, 0x80 + n / 4096 % 64, 0x80 + n / 64 % 64, 0x80 + n % 64]

/-- The UTF-8 bytes of a string (Rust `str` is exactly this byte sequence). -/
def strBytes (s : String) : List Nat :=
  s.data.flatMap utf8Bytes

/-- Rust `str::len`: the UTF-8 byte length. -/
def byteLen (s : String) : Nat :=
  (strBytes s).length

/-- The byte string of a source given as its grapheme-cluster list
(grapheme segmentation partitions the text, so concatenating the clusters
reproduces the source exactly). -/
def sourceBytes (gs : List String) : List Nat :=
  (gs.map strBytes).flatten

/-- Rust byte slicing `&s[a .. b]` without the boundary check (the lexer
only ever slices at cluster boundaries it has itself produced). -/
def slice (src : List Nat) (a b : Nat) : List Nat :=
  (src.drop a).take (b - a)

/-! ## `src/parser/span.rs` -/

/-- `Position` — line/column are 1-based, `charIndex` counts grapheme
clusters, `offset` is the byte offset into the source. -/
structure Position where
  line : Nat
  column : Nat
  charIndex : Nat
  offset : Nat
deriving DecidableEq, Repr

/-- `Position::default()`. -/
def Position.start : Position := ⟨1, 1, 0, 0⟩

/-- `Span` — half-open range between two positions. -/
structure Span where
  start : Position
  «end» : Position
deriving DecidableEq, Repr

/-- `Span::default()`. -/
def Span.default : Span := ⟨Position.start, Position.start⟩

/-- `Location` — either a point or a range, carried by diagnostics. -/
inductive Location where
  | position (p : Position)
  | span (s : Span)
deriving DecidableEq, Repr

/-! ## `src/parser/token.rs` -/

/-- `NumberBase`. -/
inductive NumberBase where
  | binary
  | octal
  | decimal
  | hexadecimal
deriving DecidableEq, Repr

/-- `IntegerLiteralToken`. -/
structure IntegerLiteralToken where
  base : NumberBase
  hasIntegerPart : Bool
deriving DecidableEq, Repr

/-- `FloatLiteralToken`. -/
structure FloatLiteralToken where
  base : NumberBase
  hasExponentPart : Bool
deriving DecidableEq, Repr

/-- `LiteralTokenKind`. -/
inductive LiteralTokenKind where
  | integer (t : IntegerLiteralToken)
  | float (t : FloatLiteralToken)
deriving DecidableEq, Repr

/-- `TokenKind`. -/
inductive TokenKind where
  | literal (kind : LiteralTokenKind) (suffixStart : Option Position)
  | identifier
  | add
  | subtractOrNegate
  | multiply
  | divide
  | modulo
  | exponent
  | echo
  | function
  | semiColon
  | colon
  | leftParen
  | rightParen
  | singleLineComment
  | whitespace
  | tab
  | newLine
  | endOfInput
deriving DecidableEq, Repr

/-- `Token` — the `source_id` label (an opaque string supplied by the
external source-management collaborator) is not modelled; `lexeme` is the
byte substring of the source. -/
structure Token where
  kind : TokenKind
  span : Span
  lexeme : List Nat
deriving DecidableEq, Repr

/-! ## `src/compiler/data_type.rs` -/

/-- `KnownDataType`. -/
inductive KnownDataType where
  | uint8
  | uint16
  | uint32
  | uint64
  | int8
  | int16
  | int32
  | int64
  | int
  | uint
  | float32
  | double
deriving DecidableEq, Repr

/-- `DataType`. -/
inductive DataType where
  | known (k : KnownDataType)
  | userDefined (name : String)
deriving DecidableEq, Repr

namespace DataType

/-- `DataType::is_same` — both `Known` with the same discriminant
(`KnownDataType` constructors carry no payload, so discriminant equality
is constructor equality). -/
def is_same (lhs rhs : DataType) : Bool :=
  match lhs, rhs with
  | known a, known b => a = b
  | _, _ => false

/-- `DataType::get_bit_size`. -/
def get_bit_size : DataType → Nat
  | known .uint8 => 8
  | known .uint16 => 16
  | known .uint32 => 32
  | known .uint64 => 64
  | known .int8 => 8
  | known .int16 => 16
  | known .int32 => 32
  | known .int64 => 64
  | known .int => 32
  | known .uint => 32
  | known .float32 => 32
  | known .double => 64
  | userDefined _ => 0

/-- `DataType::is_signed_integer`. -/
def is_signed_integer : DataType → Bool
  | known .int8 | known .int16 | known .int32 | known .int64 | known .int =>
    true
  | _ => false

/-- `DataType::is_unsigned_integer`. -/
def is_unsigned_integer : DataType → Bool
  | known .uint8 | known .uint16 | known .uint32 | known .uint64
  | known .uint => true
  | _ => false

/-- `DataType::is_generic_integer`. -/
def is_generic_integer (t : DataType) : Bool :=
  t.is_signed_integer || t.is_unsigned_integer

/-- `DataType::is_floating_point`. -/
def is_floating_point : DataType → Bool
  | known .float32 | known .double => true
  | _ => false

/-- `DataType::is_numeric`. -/
def is_numeric (t : DataType) : Bool :=
  t.is_generic_integer || t.is_floating_point

/-- `DataType::can_implictly_cast_to` (sic). -/
def can_implictly_cast_to (source target : DataType) : Bool :=
  let source_bit_size := source.get_bit_size
  if source.is_signed_integer then
    (target.is_signed_integer && decide (target.get_bit_size ≥ source_bit_size))
      || target.is_floating_point
  else if source.is_unsigned_integer then
    (target.is_unsigned_integer && decide (target.get_bit_size ≥ source_bit_size))
      || target.is_floating_point
  else if source.is_floating_point then
    target.is_floating_point && decide (target.get_bit_size ≥ source_bit_size)
  else
    false

/-- `DataType::binary_expr_result_data_type`. -/
def binary_expr_result_data_type (left right : DataType) : Option DataType :=
  if is_same left right then
    some left
  else if can_implictly_cast_to right left then
    some left
  else if can_implictly_cast_to left right then
    some right
  else
    none

end DataType

/-! ## Spec-side reformulations of the data-type rules

These two definitions follow the specification's words (for the refinement
claims about `can_implictly_cast_to` and `binary_expr_result_data_type`)
and are compared against the code-derived definitions above. -/

/-- The specification's implicit-conversion rule, stated as the four-way
disjunction of its clauses: signed→wider-or-equal signed, unsigned→
wider-or-equal unsigned, any integer→float, float→wider-or-equal float. -/
def castAllowedSpec (s t : DataType) : Prop :=
  (s.is_signed_integer ∧ t.is_signed_integer
      ∧ s.get_bit_size ≤ t.get_bit_size)
    ∨ (s.is_unsigned_integer ∧ t.is_unsigned_integer
      ∧ s.get_bit_size ≤ t.get_bit_size)
    ∨ ((s.is_signed_integer ∨ s.is_unsigned_integer) ∧ t.is_floating_point)
    ∨ (s.is_floating_point ∧ t.is_floating_point
      ∧ s.get_bit_size ≤ t.get_bit_size)

instance (s t : DataType) : Decidable (castAllowedSpec s t) := by
  unfold castAllowedSpec; infer_instance

/-- Whether two types are the same `Known` kind, in the specification's
words ("if the two types are the same, return that type"). -/
def sameKnownKind (l r : DataType) : Bool :=
  match l, r with
  | .known a, .known b => a = b
  | _, _ => false

/-- The specification's binary result-type rule: same kind ⇒ that type,
else prefer `left` when `right` casts to it, else `right` when `left`
casts to it, else no result. -/
def binaryResultSpec (l r : DataType) : Option DataType :=
  if sameKnownKind l r then some l
  else if DataType.can_implictly_cast_to r l then some l
  else if DataType.can_implictly_cast_to l r then some r
  else none

/-! ## `src/parser/lexer.rs` — character classes

`char::is_whitespace` tests the Unicode `White_Space` property (25 code
points, embedded in full).  `UnicodeXID::is_xid_start` / `is_xid_continue`
test the Unicode XID classes; they are embedded on their ASCII fragment
(the full tables live in the external `unicode_xid` crate). -/

/-- Rust `char::is_whitespace` — the Unicode `White_Space` property. -/
def rustIsWhitespace (c : Char) : Bool :=
  let n := c.toNat
  (0x09 ≤ n && n ≤ 0x0D) || n == 0x20 || n == 0x85 || n == 0xA0
    || n == 0x1680 || (0x2000 ≤ n && n ≤ 0x200A)
    || n == 0x2028 || n == 0x2029 || n == 0x202F || n == 0x205F
    || n == 0x3000

/-- `UnicodeXID::is_xid_start`, ASCII fragment (letters; `_` is not
XID_Start). -/
def isXidStartChar (c : Char) : Bool :=
  ('a' ≤ c && c ≤ 'z') || ('A' ≤ c && c ≤ 'Z')

/-- `UnicodeXID::is_xid_continue`, ASCII fragment (letters, digits, `_`). -/
def isXidContinueChar (c : Char) : Bool :=
  isXidStartChar c || ('0' ≤ c && c ≤ '9') || c = '_'

/-- Rust `char::is_digit(radix)` for the four bases in use. -/
def charIsDigit (radix : Nat) (c : Char) : Bool :=
  let v :=
    if '0' ≤ c && c ≤ '9' then c.toNat - 48
    else if 'a' ≤ c && c ≤ 'z' then c.toNat - 87
    else if 'A' ≤ c && c ≤ 'Z' then c.toNat - 55
    else 999
  v < radix

/-- `is_skipable` — a single-byte whitespace grapheme other than the four
structurally meaningful ones.  (`c.len() == 1` is the UTF-8 byte length,
so only ASCII whitespace can qualify; under that guard the grapheme has
exactly one char, hence `chars().next().unwrap()` is its only char.) -/
def is_skipable (c : String) : Bool :=
  byteLen c == 1 && c.data.all rustIsWhitespace
    && !(c == "\n" || c == "\r\n" || c == " " || c == "\t")

/-- `is_newline`. -/
def is_newline (c : String) : Bool :=
  c == "\n" || c == "\r\n"

/-- `is_digit(c, base)` — every char of the grapheme is a digit of the
base. -/
def is_digit (c : String) (base : NumberBase) : Bool :=
  match base with
  | .decimal => c.data.all (charIsDigit 10)
  | .hexadecimal => c.data.all (charIsDigit 16)
  | .binary => c.data.all (charIsDigit 2)
  | .octal => c.data.all (charIsDigit 8)

/-! ## `src/parser/lexer.rs` — the lexer

The Rust struct holds the grapheme list and a cursor (`current.char_index`)
into it; the model carries the not-yet-consumed tail `rest` of that list
directly (so `is_eoi` is `rest.isEmpty`, `peek` is `rest.head?`) together
with the `Position` values, and the full source byte string `src` is a
fixed parameter used exactly where the Rust slices `source_code` by byte
offsets.  `previous_line_column_count` feeds only the dead
`get_previous_position` helper and is not modelled. -/

/-- `LexerErrorCode`. -/
inductive LexerErrorCode where
  | unexpectedCharacter
  | invalidNumberLiteralWidth
  | unimplementedFeature
deriving DecidableEq, Repr

/-- `LexerError` — `message`/`hint` are built by the external localization
catalog and not modelled; `source_id` is the external label. -/
structure LexerError where
  code : LexerErrorCode
  location : Location
deriving DecidableEq, Repr

/-- Outcome of running embedded Rust code: a value, a returned `Err`, a
panic, or fuel exhaustion (never produced when enough fuel is supplied). -/
inductive Outcome (ε α : Type) where
  | ok (a : α)
  | err (e : ε)
  | panic
  | outOfFuel
deriving DecidableEq, Repr

/-- `Lexer::advance` — position update for consuming one grapheme. -/
def advancePos (g : String) (p : Position) : Position :=
  if is_newline g then
    { line := p.line + 1, column := 1, charIndex := p.charIndex + 1,
      offset := p.offset + byteLen g }
  else
    { line := p.line, column := p.column + 1, charIndex := p.charIndex + 1,
      offset := p.offset + byteLen g }

/-- `Lexer::new_token` — the token's lexeme is the source byte substring
between the `start` and `current` offsets. -/
def newToken (src : List Nat) (start cur : Position) (kind : TokenKind) :
    Token :=
  ⟨kind, ⟨start, cur⟩, slice src start.offset cur.offset⟩

/-- `Lexer::skip_skipable`. -/
def skipSkipable : List String → Position → List String × Position
  | [], p => ([], p)
  | g :: gs, p =>
    if is_skipable g then skipSkipable gs (advancePos g p) else (g :: gs, p)

/-- The `while … peek == expected … advance` loops (space, tab runs). -/
def consumeWhileEq (tgt : String) :
    List String → Position → List String × Position
  | [], p => ([], p)
  | g :: gs, p =>
    if g == tgt then consumeWhileEq tgt gs (advancePos g p) else (g :: gs, p)

/-- The comment loop: consume up to (exclusive) the next newline. -/
def consumeWhileNotNewline : List String → Position → List String × Position
  | [], p => ([], p)
  | g :: gs, p =>
    if is_newline g then (g :: gs, p)
    else consumeWhileNotNewline gs (advancePos g p)

/-- The identifier loop: consume the maximal `XID_Continue` run. -/
def consumeXidContinue : List String → Position → List String × Position
  | [], p => ([], p)
  | g :: gs, p =>
    if g.data.all isXidContinueChar then
      consumeXidContinue gs (advancePos g p)
    else (g :: gs, p)

/-- The integer-part loop of `consume_number`, threading `has_int_part`. -/
def consumeIntDigits (base : NumberBase) :
    List String → Position → Bool → List String × Position × Bool
  | [], p, h => ([], p, h)
  | g :: gs, p, h =>
    if is_digit g base then consumeIntDigits base gs (advancePos g p) true
    else (g :: gs, p, h)

/-- The plain digit-consuming loops (fraction, exponent digits). -/
def consumeDigits (base : NumberBase) :
    List String → Position → List String × Position
  | [], p => ([], p)
  | g :: gs, p =>
    if is_digit g base then consumeDigits base gs (advancePos g p)
    else (g :: gs, p)

/-- The suffix-width loop, accumulating the width lexeme string. -/
def consumeWidthDigits :
    List String → Position → String → List String × Position × String
  | [], p, acc => ([], p, acc)
  | g :: gs, p, acc =>
    if is_digit g .decimal then
      consumeWidthDigits gs (advancePos g p) (acc ++ g)
    else (g :: gs, p, acc)

/-- `Lexer::validate_number_width` (valid-width flag only; the returned
width lists feed the localized message).  The wildcard arm is
`unreachable!()` outside `cfg(test)`; the lexer only calls this with a
suffix in `{f, d, i, u}`. -/
def validate_number_width (width_lexeme suffix : String) : Bool :=
  match suffix with
  | "f" => width_lexeme == "" || width_lexeme == "32" || width_lexeme == "64"
  | "d" => width_lexeme == ""
  | "i" | "u" =>
    width_lexeme == "" || width_lexeme == "8" || width_lexeme == "16"
      || width_lexeme == "32" || width_lexeme == "64"
  | _ => false

/-- `Lexer::consume_number` — scans integer part, optional fraction and
exponent (decimal only), and an optional validated type suffix; produces
the literal token.  The two `InvalidNumberLiteralWidth` branches (the
`d`-specific and the generic message) differ only in their localized
message, so they coincide in the model. -/
def consumeNumber (src : List Nat) (start : Position) (base : NumberBase)
    (rest : List String) (cur : Position) :
    Outcome LexerError (Option Token × List String × Position × Position) :=
  let has_int_part0 := base == NumberBase.decimal
  let (rest1, cur1, has_int_part) := consumeIntDigits base rest cur has_int_part0
  -- fractional part: decimal, a dot followed by a digit
  let fracOk := base == NumberBase.decimal
    && (match rest1 with
        | d :: f :: _ => d == "." && is_digit f base
        | _ => false)
  let (is_int1, rest2, cur2) :=
    if fracOk then
      match rest1 with
      | d :: gs =>
        let (r, c) := consumeDigits base gs (advancePos d cur1)
        (false, r, c)
      | [] => (true, rest1, cur1)
    else (true, rest1, cur1)
  -- exponent part: decimal, `e` or `E`, optional sign
  let expOk := base == NumberBase.decimal
    && (match rest2 with
        | e :: _ => e == "e" || e == "E"
        | [] => false)
  let (is_int, has_expontent, rest3, cur3) :=
    if expOk then
      match rest2 with
      | e :: gs =>
        let cur' := advancePos e cur2
        let (gs', cur'') :=
          match gs with
          | s :: gs2 =>
            if s == "+" || s == "-" then (gs2, advancePos s cur') else (gs, cur')
          | [] => (gs, cur')
        let (r, c) := consumeDigits base gs' cur''
        (false, true, r, c)
      | [] => (is_int1, false, rest2, cur2)
    else (is_int1, false, rest2, cur2)
  -- optional type suffix
  let suffixOk :=
    match rest3 with
    | s :: _ => s == "f" || s == "d" || s == "i" || s == "u"
    | [] => false
  let suffixStep :
      Outcome LexerError (Option Position × List String × Position) :=
    if suffixOk then
      match rest3 with
      | sfx :: gs =>
        let suffix_start_pos := cur3
        let cur4 := advancePos sfx cur3
        let (rest5, cur5, width_lexeme) := consumeWidthDigits gs cur4 ""
        if validate_number_width width_lexeme sfx then
          .ok (some suffix_start_pos, rest5, cur5)
        else
          .err ⟨.invalidNumberLiteralWidth,
            .span ⟨suffix_start_pos, cur5⟩⟩
      | [] => .ok (none, rest3, cur3)
    else .ok (none, rest3, cur3)
  match suffixStep with
  | .ok (suffix_start_pos, rest6, cur6) =>
    .ok (some (newToken src start cur6
      (if is_int then
        .literal (.integer ⟨base, has_int_part⟩) suffix_start_pos
      else
        .literal (.float ⟨base, has_expontent⟩) suffix_start_pos)),
      rest6, start, cur6)
  | .err e => .err e
  | .panic => .panic
  | .outOfFuel => .outOfFuel

/-- `Lexer::create_number_token` — base dispatch on a leading `0` followed
by `x`/`b`/`o`.  `c` is the just-consumed first grapheme
(`self.previous()`). -/
def createNumberToken (src : List Nat) (start : Position) (c : String)
    (rest : List String) (cur : Position) :
    Outcome LexerError (Option Token × List String × Position × Position) :=
  if c == "0" then
    match rest with
    | g :: gs =>
      if g == "x" then
        consumeNumber src start .hexadecimal gs (advancePos g cur)
      else if g == "b" then
        consumeNumber src start .binary gs (advancePos g cur)
      else if g == "o" then
        consumeNumber src start .octal gs (advancePos g cur)
      else
        consumeNumber src start .decimal rest cur
    | [] => consumeNumber src start .decimal rest cur
  else
    consumeNumber src start .decimal rest cur

/-- `Lexer::create_reserved_or_identifier_token` — maximal `XID_Continue`
run; only the keyword `echo` is accepted, any other identifier is the
`UnimplementedFeature` error. -/
def createReservedOrIdentifierToken (src : List Nat) (start : Position)
    (rest : List String) (cur : Position) :
    Outcome LexerError (Option Token × List String × Position × Position) :=
  let (rest1, cur1) := consumeXidContinue rest cur
  if slice src start.offset cur1.offset == strBytes "echo" then
    .ok (some (newToken src start cur1 .echo), rest1, start, cur1)
  else
    .err ⟨.unimplementedFeature, .span ⟨start, cur1⟩⟩

/-- `Lexer::scan_token` — skip skipables, then scan one token.  Returns
the emitted token (or `none` for a consumed-and-discarded run), the
remaining graphemes, and the updated `start`/`current` positions.  When
the skipables run to end of input, `advance` unwraps `None` — a panic. -/
def scanToken (src : List Nat) (rest : List String) (cur : Position) :
    Outcome LexerError (Option Token × List String × Position × Position) :=
  let (rest1, cur1) := skipSkipable rest cur
  let start := cur1
  match rest1 with
  | [] => .panic
  | c :: rest2 =>
    let cur2 := advancePos c cur1
    if c.data.all isXidStartChar then
      createReservedOrIdentifierToken src start rest2 cur2
    else if c.data.all (charIsDigit 10) then
      createNumberToken src start c rest2 cur2
    else if c == "+" then
      .ok (some (newToken src start cur2 .add), rest2, start, cur2)
    else if c == "-" then
      .ok (some (newToken src start cur2 .subtractOrNegate), rest2, start, cur2)
    else if c == "*" then
      match rest2 with
      | g :: gs =>
        if g == "*" then
          let cur3 := advancePos g cur2
          .ok (some (newToken src start cur3 .exponent), gs, start, cur3)
        else
          .ok (some (newToken src start cur2 .multiply), rest2, start, cur2)
      | [] => .ok (some (newToken src start cur2 .multiply), rest2, start, cur2)
    else if c == "/" then
      match rest2 with
      | g :: gs =>
        if g == "/" then
          let cur3 := advancePos g cur2
          let (rest4, cur4) := consumeWhileNotNewline gs cur3
          .ok (some (newToken src start cur4 .singleLineComment),
            rest4, start, cur4)
        else
          .ok (some (newToken src start cur2 .divide), rest2, start, cur2)
      | [] => .ok (some (newToken src start cur2 .divide), rest2, start, cur2)
    else if c == "%" then
      .ok (some (newToken src start cur2 .modulo), rest2, start, cur2)
    else if c == "(" then
      .ok (some (newToken src start cur2 .leftParen), rest2, start, cur2)
    else if c == ")" then
      .ok (some (newToken src start cur2 .rightParen), rest2, start, cur2)
    else if c == ";" then
      .ok (some (newToken src start cur2 .semiColon), rest2, start, cur2)
    else if c == ":" then
      .ok (some (newToken src start cur2 .colon), rest2, start, cur2)
    else if c == " " then
      let (rest3, cur3) := consumeWhileEq " " rest2 cur2
      if start.column == 1
          && (match rest3.head? with
              | some g => !is_newline g
              | none => false) then
        .ok (some (newToken src start cur3 .whitespace), rest3, start, cur3)
      else
        .ok (none, rest3, start, cur3)
    else if c == "\t" then
      let (rest3, cur3) := consumeWhileEq "\t" rest2 cur2
      if start.column == 1
          && (match rest3.head? with
              | some g => !is_newline g
              | none => false) then
        .ok (some (newToken src start cur3 .tab), rest3, start, cur3)
      else
        .ok (none, rest3, start, cur3)
    else if is_newline c then
      .ok (some (newToken src start cur2 .newLine), rest2, start, cur2)
    else
      .err ⟨.unexpectedCharacter, .position start⟩

/-- `Lexer::tokenize_internal` — scan until end of input, then append the
`EndOfInput` token built from the *current* `start`/`current` fields (so
its span starts where the last `scan_token` set `start`).  `None` results
(discarded runs) are filtered out as the Rust code does. -/
def tokenizeLoop (src : List Nat) :
    Nat → List String → Position → Position → Outcome LexerError (List Token)
  | 0, _, _, _ => .outOfFuel
  | _ + 1, [], start, cur => .ok [newToken src start cur .endOfInput]
  | fuel + 1, g :: gs, _start, cur =>
    match scanToken src (g :: gs) cur with
    | .ok (some t, rest', start', cur') =>
      match tokenizeLoop src fuel rest' start' cur' with
      | .ok ts => .ok (t :: ts)
      | .err e => .err e
      | .panic => .panic
      | .outOfFuel => .outOfFuel
    | .ok (none, rest', start', cur') => tokenizeLoop src fuel rest' start' cur'
    | .err e => .err e
    | .panic => .panic
    | .outOfFuel => .outOfFuel

/-- `Lexer::tokenize` on the grapheme-cluster list of the source; the fuel
`gs.length + 1` always suffices because every `scan_token` consumes at
least one grapheme. -/
def tokenize (gs : List String) : Outcome LexerError (List Token) :=
  tokenizeLoop (sourceBytes gs) (gs.length + 1) gs Position.start Position.start

/-! ## `src/parser/ast.rs` -/

/-- `Value` — numeric literal payloads.  `Float32`/`Double` carry the
numeric lexeme bytes the Rust code parses into `f32`/`f64` (IEEE floats
are not shallowly embedded; no claim inspects these payloads). -/
inductive Value where
  | uint8 (v : Nat)
  | uint16 (v : Nat)
  | uint32 (v : Nat)
  | uint64 (v : Nat)
  | int8 (v : Int)
  | int16 (v : Int)
  | int32 (v : Int)
  | int64 (v : Int)
  | int (v : Int)
  | uint (v : Nat)
  | float32 (numLexeme : List Nat)
  | double (numLexeme : List Nat)
deriving DecidableEq, Repr

/-- `UnaryOperator`. -/
inductive UnaryOperator where
  | negate
deriving DecidableEq, Repr

/-- `BinaryOperator`. -/
inductive BinaryOperator where
  | add
  | subtract
  | multiply
  | divide
  | modulo
  | exponent
deriving DecidableEq, Repr

/-- `Expression` — the raw expression tree (`LiteralExpr`, `GroupingExpr`,
`UnaryExpr`, `BinaryExpr` with their token fields inlined). -/
inductive Expression where
  | literal (value : Value) (token : Option Token)
  | grouping (leftParenToken : Option Token) (expression : Expression)
      (rightParenToken : Option Token)
  | unary (operator : UnaryOperator) (operatorToken : Option Token)
      (right : Expression)
  | binary (left : Expression) (operator : BinaryOperator)
      (operatorToken : Option Token) (right : Expression)
deriving DecidableEq, Repr

/-- `DataTypeNode`. -/
structure DataTypeNode where
  token : Option Token
  inner : DataType
deriving DecidableEq, Repr

/-- `FunctionDeclParameter`. -/
structure FunctionDeclParameter where
  identifier : Token
  dataType : DataTypeNode
deriving DecidableEq, Repr

/-- `Statement` — expression, echo, or function-declaration statement
(`FunctionDeclStmt` fields inlined). -/
inductive Statement where
  | expression (expr : Expression)
  | echo (echoToken : Option Token) (expr : Expression)
  | functionDecl (functionToken : Option Token) (name : Option Token)
      (leftParenToken : Option Token)
      (parameters : List FunctionDeclParameter)
      (rightParenToken : Option Token) (body : List Statement)

/-- `Module` — the `id` label (the source id string) is not modelled. -/
structure Module where
  statements : List Statement

/-- `GetSpan` for `Expression` (per-node `get_span` impls in `ast.rs`). -/
def Expression.getSpan : Expression → Option Span
  | .literal _ tok => tok.map (·.span)
  | .grouping lp _ rp =>
    match lp, rp with
    | some l, some r => some ⟨l.span.start, r.span.end⟩
    | _, _ => none
  | .unary _ opTok right =>
    match opTok, right.getSpan with
    | some t, some rs => some ⟨t.span.start, rs.end⟩
    | _, _ => none
  | .binary left _ _ right =>
    match left.getSpan, right.getSpan with
    | some ls, some rs => some ⟨ls.start, rs.end⟩
    | _, _ => none

mutual

/-- `GetSpan` for `Statement` (the function-declaration case combines the
`function` keyword token with the last body statement's span). -/
def Statement.getSpan : Statement → Option Span
  | .expression e => e.getSpan
  | .echo tok e =>
    match tok, e.getSpan with
    | some t, some es => some ⟨t.span.start, es.end⟩
    | _, _ => none
  | .functionDecl fnTok _ _ _ _ body =>
    match fnTok, Statement.lastSpan body with
    | some t, some ls => some ⟨t.span.start, ls.end⟩
    | _, _ => none

/-- `body.last().map(get_span).flatten()` as a structural recursion. -/
def Statement.lastSpan : List Statement → Option Span
  | [] => none
  | [s] => s.getSpan
  | _ :: s :: rest => Statement.lastSpan (s :: rest)

end

/-! ## `src/parser/mod.rs` — the Pratt parser

The parser state is the fixed token vector plus the `current` index; Rust
`Vec` indexing (`self.tokens[i]`) out of range is a panic.  The
`ParseRule` function pointers are modelled by the two `Bool` flags
(`prefix_fn.is_some()` / `infix_fn.is_some()`) plus dispatch on the token
kind at the call sites — the rule table maps each kind to exactly one
handler, so the dispatch is the same function table. -/

/-- `ParserErrorCode`. -/
inductive ParserErrorCode where
  | expectedExpression
deriving DecidableEq, Repr

/-- `ParserError` — `message`/`hint` come from the external localization
catalog and are not modelled. -/
structure ParserError where
  code : ParserErrorCode
  location : Location
deriving DecidableEq, Repr

/-- `Precedence` (the `#[repr(u8)]` ordering). -/
inductive Precedence where
  | none
  | term
  | factor
  | unary
  | exponent
  | primary
deriving DecidableEq, Repr

/-- The `u8` discriminant of a precedence. -/
def Precedence.toNat : Precedence → Nat
  | .none => 0
  | .term => 1
  | .factor => 2
  | .unary => 3
  | .exponent => 4
  | .primary => 5

/-- `FromPrimitive::from_u8` for `Precedence`. -/
def Precedence.fromNat : Nat → Option Precedence
  | 0 => some .none
  | 1 => some .term
  | 2 => some .factor
  | 3 => some .unary
  | 4 => some .exponent
  | 5 => some .primary
  | _ => Option.none

/-- `Associativity`. -/
inductive Associativity where
  | none
  | left
  | right
deriving DecidableEq, Repr

/-- `ParseRule` with the handler availability flags. -/
structure ParseRule where
  hasNud : Bool
  hasLed : Bool
  precedence : Precedence
  associativity : Associativity
deriving DecidableEq, Repr

/-- `Parser::get_parse_rule`. -/
def getParseRule (kind : TokenKind) : ParseRule :=
  match kind with
  | .add => ⟨false, true, .term, .left⟩
  | .subtractOrNegate => ⟨true, true, .term, .left⟩
  | .multiply => ⟨false, true, .factor, .left⟩
  | .divide => ⟨false, true, .factor, .left⟩
  | .exponent => ⟨false, true, .exponent, .right⟩
  | .modulo => ⟨false, true, .factor, .left⟩
  | .leftParen => ⟨true, false, .primary, .none⟩
  | .literal _ _ => ⟨true, false, .primary, .none⟩
  | _ => ⟨false, false, .none, .none⟩

/-- `self.tokens[self.current]` — panics out of range, telescoped through
`Option`. -/
def tokenAt (tokens : List Token) (i : Nat) : Option Token :=
  tokens.get? i

/-- `Parser::previous` — `self.tokens[self.current - 1]`; at `current = 0`
the `usize` subtraction underflows (a panic). -/
def previousTok (tokens : List Token) (current : Nat) : Option Token :=
  if current = 0 then none else tokens.get? (current - 1)

/-- Decimal `str::parse` to a bounded nonnegative integer (all the lexeme
texts here are unsigned digit strings); `none` is the `Err` the Rust code
`unwrap`s — a panic. -/
def parseNatBytesLe (bs : List Nat) (bound : Nat) : Option Nat :=
  if bs = [] then none
  else if bs.all (fun b => 48 ≤ b && b ≤ 57) then
    let v := bs.foldl (fun acc b => acc * 10 + (b - 48)) 0
    if v ≤ bound then some v else none
  else none

/-- Decimal digit byte. -/
def isDigitByte (b : Nat) : Bool :=
  48 ≤ b && b ≤ 57

/-- ASCII lowercasing of a byte (for the case-insensitive special float
forms). -/
def lowerByte (b : Nat) : Nat :=
  if 65 ≤ b && b ≤ 90 then b + 32 else b

/-- The exponent-and-end production of Rust's `str::parse::<f32/f64>`
grammar: either the end of the string, or `e`/`E`, an optional sign, and
a nonempty digit run that ends the string. -/
def rustFloatExpTail (bs : List Nat) : Bool :=
  match bs with
  | [] => true
  | e :: rest =>
    if e = 101 || e = 69 then -- 'e' | 'E'
      let rest1 :=
        match rest with
        | s :: r => if s = 43 || s = 45 then r else rest -- '+' | '-'
        | [] => rest
      !(rest1.takeWhile isDigitByte).isEmpty
        && (rest1.dropWhile isDigitByte).isEmpty
    else false

/-- The `Number` production of Rust's float grammar:
`Count '.'? Count? Exp?` or `'.' Count Exp?`. -/
def rustFloatNumber (bs : List Nat) : Bool :=
  let d1 := bs.takeWhile isDigitByte
  let r1 := bs.dropWhile isDigitByte
  if !d1.isEmpty then
    match r1 with
    | 46 :: r2 => rustFloatExpTail (r2.dropWhile isDigitByte) -- '.'
    | _ => rustFloatExpTail r1
  else
    match bs with
    | 46 :: r2 =>
      !(r2.takeWhile isDigitByte).isEmpty
        && rustFloatExpTail (r2.dropWhile isDigitByte)
    | _ => false

/-- Whether `str::parse::<f32>` / `str::parse::<f64>` succeeds on this
byte string (both float types share the grammar): an optional sign
followed by `inf`, `infinity` or `nan` (case-insensitively) or by a
`Number`.  A failed parse is an `Err` that the literal-resolution code
`unwrap`s — a panic.  E.g. it fails on the empty string and on `1e`
(an exponent marker with no digits), both of which the lexer can hand
to the parser inside a successful token stream. -/
def rustFloatParses (bs : List Nat) : Bool :=
  let body :=
    match bs with
    | b :: rest => if b = 43 || b = 45 then rest else bs
    | [] => bs
  let low := body.map lowerByte
  low = strBytes "inf" || low = strBytes "infinity" || low = strBytes "nan"
    || rustFloatNumber body

/-- `Parser::parse_suffix_string` on the suffix bytes: the suffix letter
(as its byte) and the width.  `none` models the panics: `unwrap` on an
empty suffix, a failed `u8` width parse, and the `unexpected suffix`
`panic!`. -/
def parseSuffixString (suffix : List Nat) : Option (Nat × Nat) :=
  match suffix.head? with
  | Option.none => none
  | some b =>
    if b = 117 || b = 105 then -- 'u' | 'i'
      if suffix.length = 1 then some (b, 0)
      else (parseNatBytesLe (suffix.drop 1) 255).map (fun w => (b, w))
    else if b = 102 then -- 'f'
      if suffix.length = 1 then some (102, 32)
      else (parseNatBytesLe (suffix.drop 1) 255).map (fun w => (102, w))
    else if b = 100 then -- 'd'
      some (100, 64)
    else none

/-- `Parser::parse_integer_literal_expr` — splits the lexeme at the
*token-relative* suffix index (`suffix_start.offset` minus the span's
start offset), strips a base prefix for non-decimal bases, and picks the
`Value` variant from the parsed suffix.  All failure paths are panics
(`str` slicing out of range, `unwrap` on a failed numeric parse, the
wildcard `panic!`). -/
def parseIntegerLiteralExpr (parentToken : Token)
    (integer : IntegerLiteralToken) (suffixStart : Option Position) :
    Outcome ParserError Expression :=
  let raw := parentToken.lexeme
  let suffixStartRelative :=
    suffixStart.map (fun sp => sp.offset - parentToken.span.start.offset)
  let cut := suffixStartRelative.getD raw.length
  if cut > raw.length then .panic
  else
    let number_lexeme := raw.take cut
    let suffix := raw.drop cut
    let parsedSuffix :=
      match suffixStartRelative with
      | Option.none => some (105, 0) -- ('i', 0)
      | some _ => parseSuffixString suffix
    match parsedSuffix with
    | Option.none => .panic
    | some sw =>
      let strippedStep :
          Outcome ParserError (List Nat) :=
        if integer.base == NumberBase.decimal then .ok number_lexeme
        else if number_lexeme.length < 2 then .panic
        else .ok (number_lexeme.drop 2)
      match strippedStep with
      | .ok stripped =>
        let mk (v : Nat → Option Value) : Outcome ParserError Expression :=
          match (parseNatBytesLe stripped (2 ^ 64)).bind v with
          | some value => .ok (.literal value (some parentToken))
          | Option.none => .panic
        match sw with
        | (105, 0) => mk (fun n =>
            if n ≤ 9223372036854775807 then some (.int n) else none)
        | (105, 8) => mk (fun n =>
            if n ≤ 127 then some (.int8 n) else none)
        | (105, 16) => mk (fun n =>
            if n ≤ 32767 then some (.int16 n) else none)
        | (105, 32) => mk (fun n =>
            if n ≤ 2147483647 then some (.int32 n) else none)
        | (105, 64) => mk (fun n =>
            if n ≤ 9223372036854775807 then some (.int64 n) else none)
        | (117, 0) => mk (fun n =>
            if n ≤ 18446744073709551615 then some (.uint n) else none)
        | (117, 8) => mk (fun n =>
            if n ≤ 255 then some (.uint8 n) else none)
        | (117, 16) => mk (fun n =>
            if n ≤ 65535 then some (.uint16 n) else none)
        | (117, 32) => mk (fun n =>
            if n ≤ 4294967295 then some (.uint32 n) else none)
        | (117, 64) => mk (fun n =>
            if n ≤ 18446744073709551615 then some (.uint64 n) else none)
        | (102, 32) =>
          if rustFloatParses stripped then
            .ok (.literal (.float32 stripped) (some parentToken))
          else .panic -- parse::<f32>(..).unwrap()
        | (102, 64) =>
          if rustFloatParses stripped then
            .ok (.literal (.double stripped) (some parentToken))
          else .panic -- parse::<f64>(..).unwrap()
        | (100, 64) =>
          if rustFloatParses stripped then
            .ok (.literal (.double stripped) (some parentToken))
          else .panic -- parse::<f64>(..).unwrap()
        | _ => .panic
      | _ => .panic

/-- `Parser::parse_float_literal_expr` — splits the lexeme at
`suffix_start.offset`, the *absolute* source byte offset (no subtraction
of the span's start offset, unlike the integer path); the `str` slice
panics when that offset exceeds the lexeme length.  The numeric text is
then parsed with `str::parse::<f32/f64>().unwrap()`, a panic when the
parse fails (which a successful tokenize can produce, e.g. on the
unsuffixed float token `1e`); on success the float payload carries the
parsed numeric bytes. -/
def parseFloatLiteralExpr (parentToken : Token)
    (_float : FloatLiteralToken) (suffixStart : Option Position) :
    Outcome ParserError Expression :=
  let raw := parentToken.lexeme
  match suffixStart with
  | Option.none =>
    -- no suffix: parsed_suffix defaults to ('f', 64)
    if rustFloatParses raw then
      .ok (.literal (.double raw) (some parentToken))
    else .panic -- parse::<f64>(..).unwrap()
  | some sp =>
    if sp.offset > raw.length then .panic
    else
      let number_lexeme := raw.take sp.offset
      let suffix := raw.drop sp.offset
      match parseSuffixString suffix with
      | some (102, 32) =>
        if rustFloatParses number_lexeme then
          .ok (.literal (.float32 number_lexeme) (some parentToken))
        else .panic -- parse::<f32>(..).unwrap()
      | some (102, 64) =>
        if rustFloatParses number_lexeme then
          .ok (.literal (.double number_lexeme) (some parentToken))
        else .panic -- parse::<f64>(..).unwrap()
      | some (100, 64) =>
        if rustFloatParses number_lexeme then
          .ok (.literal (.double number_lexeme) (some parentToken))
        else .panic -- parse::<f64>(..).unwrap()
      | some _ => .panic
      | Option.none => .panic

/-- `Parser::parse_literal_expr` — dispatch on the literal token kind of
`self.previous()`. -/
def parseLiteralExpr (tokens : List Token) (current : Nat) :
    Outcome ParserError (Expression × Nat) :=
  match previousTok tokens current with
  | Option.none => .panic
  | some literal =>
    match literal.kind with
    | .literal (.integer integer) suffixStart =>
      match parseIntegerLiteralExpr literal integer suffixStart with
      | .ok e => .ok (e, current)
      | .err e => .err e
      | .panic => .panic
      | .outOfFuel => .outOfFuel
    | .literal (.float float) suffixStart =>
      match parseFloatLiteralExpr literal float suffixStart with
      | .ok e => .ok (e, current)
      | .err e => .err e
      | .panic => .panic
      | .outOfFuel => .outOfFuel
    | _ => .panic

mutual

/-- `Parser::pratt_parse` — parse one prefix expression, then fold infix
operators while the upcoming rule's precedence is at least the requested
one.  A missing prefix handler is the `ExpectedExpression` error; the
prefix dispatch hits exactly the token kinds whose rule has a handler. -/
def prattParse (tokens : List Token) (fuel : Nat) (precedence : Precedence)
    (current : Nat) : Outcome ParserError (Expression × Nat) :=
  match fuel with
  | 0 => .outOfFuel
  | fuel + 1 =>
    match tokenAt tokens current with
    | Option.none => .panic -- advance: tokens[current] out of range
    | some lhsToken =>
      let cur1 := current + 1
      let rule := getParseRule lhsToken.kind
      if !rule.hasNud then
        .err ⟨.expectedExpression, .span lhsToken.span⟩
      else
        let lhsStep :=
          match lhsToken.kind with
          | .subtractOrNegate => parseUnaryExpr tokens fuel cur1
          | .leftParen => parseGroupingExpr tokens fuel cur1
          | .literal _ _ => parseLiteralExpr tokens cur1
          | _ => .panic -- unreachable: no other kind has a prefix handler
        match lhsStep with
        | .ok (lhs, cur2) => prattLoop tokens fuel precedence lhs cur2
        | .err e => .err e
        | .panic => .panic
        | .outOfFuel => .outOfFuel
termination_by structural fuel

/-- The `while precedence <= rule(tokens[current]).precedence` loop of
`pratt_parse`: reading `self.tokens[self.current]` out of range panics,
and `infix_rule.infix_fn.unwrap()` panics when the matched rule has no
infix handler. -/
def prattLoop (tokens : List Token) (fuel : Nat) (precedence : Precedence)
    (lhs : Expression) (current : Nat) :
    Outcome ParserError (Expression × Nat) :=
  match fuel with
  | 0 => .outOfFuel
  | fuel + 1 =>
    match tokenAt tokens current with
    | Option.none => .panic
    | some next =>
      if precedence.toNat ≤ (getParseRule next.kind).precedence.toNat then
        let cur1 := current + 1 -- advance
        match next.kind with
        | .add | .subtractOrNegate | .multiply | .divide | .exponent
        | .modulo =>
          match parseBinaryExpr tokens fuel lhs cur1 with
          | .ok (lhs', cur2) => prattLoop tokens fuel precedence lhs' cur2
          | .err e => .err e
          | .panic => .panic
          | .outOfFuel => .outOfFuel
        | _ => .panic -- infix_fn.unwrap() on None
      else
        .ok (lhs, current)
termination_by structural fuel

/-- `Parser::parse_grouping_expr` — parses the inner expression, then
*unconditionally* consumes the next token as the closing parenthesis. -/
def parseGroupingExpr (tokens : List Token) (fuel : Nat) (current : Nat) :
    Outcome ParserError (Expression × Nat) :=
  match fuel with
  | 0 => .outOfFuel
  | fuel + 1 =>
    match previousTok tokens current with
    | Option.none => .panic
    | some leftParenToken =>
      match prattParse tokens fuel .term current with
      | .ok (expression, cur1) =>
        match tokenAt tokens cur1 with
        | Option.none => .panic -- advance out of range
        | some rightParenToken =>
          .ok (.grouping (some leftParenToken) expression
            (some rightParenToken), cur1 + 1)
      | .err e => .err e
      | .panic => .panic
      | .outOfFuel => .outOfFuel
termination_by structural fuel

/-- `Parser::parse_unary_expr` — the operator is `previous()`; the operand
is parsed at `Unary` precedence. -/
def parseUnaryExpr (tokens : List Token) (fuel : Nat) (current : Nat) :
    Outcome ParserError (Expression × Nat) :=
  match fuel with
  | 0 => .outOfFuel
  | fuel + 1 =>
    match previousTok tokens current with
    | Option.none => .panic
    | some operatorToken =>
      match operatorToken.kind with
      | .subtractOrNegate =>
        match prattParse tokens fuel .unary current with
        | .ok (right, cur1) =>
          .ok (.unary .negate (some operatorToken) right, cur1)
        | .err e => .err e
        | .panic => .panic
        | .outOfFuel => .outOfFuel
      | _ => .panic -- panic!("unexpected unary operator")
termination_by structural fuel

/-- `Parser::parse_binary_expr` — the right operand reparses at the same
precedence for a right-associative operator and at `precedence + 1`
otherwise (`from_u8(... + 1).unwrap()`). -/
def parseBinaryExpr (tokens : List Token) (fuel : Nat) (left : Expression)
    (current : Nat) : Outcome ParserError (Expression × Nat) :=
  match fuel with
  | 0 => .outOfFuel
  | fuel + 1 =>
    match previousTok tokens current with
    | Option.none => .panic
    | some operatorToken =>
      let operator? : Option BinaryOperator :=
        match operatorToken.kind with
        | .add => some .add
        | .subtractOrNegate => some .subtract
        | .multiply => some .multiply
        | .divide => some .divide
        | .exponent => some .exponent
        | .modulo => some .modulo
        | _ => Option.none
      match operator? with
      | Option.none => .panic -- panic!("unexpected binary operator")
      | some operator =>
        let rule := getParseRule operatorToken.kind
        let nextPrec? :=
          if rule.associativity == Associativity.right then
            some rule.precedence
          else
            Precedence.fromNat (rule.precedence.toNat + 1)
        match nextPrec? with
        | Option.none => .panic -- from_u8(_).unwrap()
        | some nextPrec =>
          match prattParse tokens fuel nextPrec current with
          | .ok (right, cur1) =>
            .ok (.binary left operator (some operatorToken) right, cur1)
          | .err e => .err e
          | .panic => .panic
          | .outOfFuel => .outOfFuel
termination_by structural fuel

end

/-- `Parser::parse_expression` — pratt parse at `Term`. -/
def parseExpression (tokens : List Token) (fuel : Nat) (current : Nat) :
    Outcome ParserError (Expression × Nat) :=
  prattParse tokens fuel .term current

/-- `Parser::consume_newlines` — advance while the peeked token is a
newline (`peek` panics past the end of the vector). -/
def consumeNewlines (tokens : List Token) :
    Nat → Nat → Outcome ParserError Nat
  | 0, _ => .outOfFuel
  | fuel + 1, current =>
    match tokenAt tokens current with
    | Option.none => .panic
    | some t =>
      if t.kind == TokenKind.newLine then
        consumeNewlines tokens fuel (current + 1)
      else .ok current

/-- `Parser::parse_simple_stmt` and its callees (`match_and_consume` of
the `echo` keyword, then echo or expression statement). -/
def parseSimpleStmt (tokens : List Token) (fuel : Nat) (current : Nat) :
    Outcome ParserError (Statement × Nat) :=
  match tokenAt tokens current with
  | Option.none => .panic -- match_and_consume indexes tokens[current]
  | some t =>
    if t.kind == TokenKind.echo then
      -- parse_echo_stmt: echo_token := previous()
      match previousTok tokens (current + 1) with
      | Option.none => .panic
      | some echoToken =>
        match parseExpression tokens fuel (current + 1) with
        | .ok (expression, cur1) =>
          .ok (.echo (some echoToken) expression, cur1)
        | .err e => .err e
        | .panic => .panic
        | .outOfFuel => .outOfFuel
    else
      match parseExpression tokens fuel current with
      | .ok (expression, cur1) => .ok (.expression expression, cur1)
      | .err e => .err e
      | .panic => .panic
      | .outOfFuel => .outOfFuel

/-- `Parser::parse_statement` — one simple statement (via the
singleton-producing `parse_simple_stmts`), then newlines as statement
terminator. -/
def parseStatement (tokens : List Token) (fuel : Nat) (current : Nat) :
    Outcome ParserError (Statement × Nat) :=
  match parseSimpleStmt tokens fuel current with
  | .ok (stmt, cur1) =>
    match consumeNewlines tokens fuel cur1 with
    | .ok cur2 => .ok (stmt, cur2)
    | .err e => .err e
    | .panic => .panic
    | .outOfFuel => .outOfFuel
  | .err e => .err e
  | .panic => .panic
  | .outOfFuel => .outOfFuel

/-- `Parser::parse_statements` — statements until `EndOfInput` is peeked
(`is_eoi` panics when `current` runs past the vector). -/
def parseStatements (tokens : List Token) :
    Nat → Nat → Outcome ParserError (List Statement × Nat)
  | 0, _ => .outOfFuel
  | fuel + 1, current =>
    match tokenAt tokens current with
    | Option.none => .panic -- is_eoi peeks tokens[current]
    | some t =>
      if t.kind == TokenKind.endOfInput then .ok ([], current)
      else
        match parseStatement tokens fuel current with
        | .ok (stmt, cur1) =>
          match parseStatements tokens fuel cur1 with
          | .ok (stmts, cur2) => .ok (stmt :: stmts, cur2)
          | .err e => .err e
          | .panic => .panic
          | .outOfFuel => .outOfFuel
        | .err e => .err e
        | .panic => .panic
        | .outOfFuel => .outOfFuel

/-- `Parser::parse_module` — leading newlines, the statements, and (in
main-module mode) the synthetic `main` function wrapper whose `function`
token takes the first statement's span (or the default span). -/
def parseModule (tokens : List Token) (fuel : Nat) (isMainModule : Bool) :
    Outcome ParserError Module :=
  match consumeNewlines tokens fuel 0 with
  | .ok cur0 =>
    match parseStatements tokens fuel cur0 with
    | .ok (statements, _) =>
      if isMainModule then
        let firstStmtSpan := (statements.head?.map Statement.getSpan).join
        let func : Statement :=
          .functionDecl
            (some ⟨.function, firstStmtSpan.getD Span.default,
              strBytes "func"⟩)
            (some ⟨.identifier, Span.default, strBytes "main"⟩)
            Option.none [] Option.none statements
        .ok ⟨[func]⟩
      else
        .ok ⟨statements⟩
    | .err e => .err e
    | .panic => .panic
    | .outOfFuel => .outOfFuel
  | .err e => .err e
  | .panic => .panic
  | .outOfFuel => .outOfFuel

/-- `Parser::parse` — fuel `tokens.length + 16` is ample: every recursive
descent step first consumes a token. -/
def Parser.parse (tokens : List Token) (isMainModule : Bool) :
    Outcome ParserError Module :=
  parseModule tokens (tokens.length + 16) isMainModule

/-! ## `src/compiler/annotated_ast.rs` -/

/-- `AnnotatedExpression` — each node pairs the inner node with its
inferred `DataType` (the `AnnotatedAst { inner, data_type }` wrapper
inlined). -/
inductive AnnotatedExpression where
  | literal (value : Value) (token : Option Token) (dataType : DataType)
  | group (leftParenToken : Option Token) (expression : AnnotatedExpression)
      (rightParenToken : Option Token) (dataType : DataType)
  | binary (left : AnnotatedExpression) (operator : BinaryOperator)
      (operatorToken : Option Token) (right : AnnotatedExpression)
      (dataType : DataType)
  | unary (operator : UnaryOperator) (operatorToken : Option Token)
      (right : AnnotatedExpression) (dataType : DataType)

/-- `AnnotatedExpression::get_data_type`. -/
def AnnotatedExpression.get_data_type : AnnotatedExpression → DataType
  | .literal _ _ dt => dt
  | .group _ _ _ dt => dt
  | .binary _ _ _ _ dt => dt
  | .unary _ _ _ dt => dt

/-- `AnnotatedStatement` — statements carry `Option DataType`, always
`none` in this checker. -/
inductive AnnotatedStatement where
  | expression (expr : AnnotatedExpression) (dataType : Option DataType)
  | echo (echoToken : Option Token) (expr : AnnotatedExpression)
      (dataType : Option DataType)
  | functionDecl (functionToken : Option Token) (name : Option Token)
      (leftParenToken : Option Token)
      (parameters : List FunctionDeclParameter)
      (rightParenToken : Option Token) (body : List AnnotatedStatement)
      (dataType : Option DataType)

/-- `AnnotatedModule` — the `id` label is not modelled. -/
structure AnnotatedModule where
  statements : List AnnotatedStatement

/-! ## `src/compiler/semantic_checker.rs` -/

/-- `codespan_reporting` `LabelStyle`. -/
inductive LabelStyle where
  | primary
  | secondary
deriving DecidableEq, Repr

/-- `SemanticCheckerErrorCode`. -/
inductive SemanticCheckerErrorCode where
  | invalidOperand
deriving DecidableEq, Repr

/-- `SemanticCheckerError` — labels keep their style and location; the
label texts, `message` and `hint` are built by the external localization
catalog (`t!` and the `description` helpers) and are not modelled. -/
structure SemanticCheckerError where
  code : SemanticCheckerErrorCode
  labels : List (LabelStyle × Location)
deriving DecidableEq, Repr

/-- `SemanticChecker::check_unary_negate_operands` — the legality test the
code runs is `!rhs.is_floating_point() || !rhs.is_signed_integer()`
(error when that holds); on the other branch the operand's type is
returned unchanged.  The labels are the operator token (secondary) and
the operand's span (primary), each when present. -/
def check_unary_negate_operands (operatorToken : Option Token)
    (right : Expression) (rhs : DataType) :
    Except SemanticCheckerError DataType :=
  if !rhs.is_floating_point || !rhs.is_signed_integer then
    let labels : List (LabelStyle × Location) :=
      (match operatorToken with
        | some t => [(LabelStyle.secondary, Location.span t.span)]
        | Option.none => [])
      ++ (match right.getSpan with
        | some s => [(LabelStyle.primary, Location.span s)]
        | Option.none => [])
    .error ⟨.invalidOperand, labels⟩
  else
    .ok rhs

/-- `SemanticChecker::check_binary_arithmetic_operands` — result type per
`binary_expr_result_data_type`; on `None` the `InvalidOperand` error with
operator (secondary), left (secondary) and right (primary) labels. -/
def check_binary_arithmetic_operands (operatorToken : Option Token)
    (left right : Expression) (lhs rhs : DataType) :
    Except SemanticCheckerError DataType :=
  match DataType.binary_expr_result_data_type lhs rhs with
  | some dt => .ok dt
  | Option.none =>
    let labels : List (LabelStyle × Location) :=
      (match operatorToken with
        | some t => [(LabelStyle.secondary, Location.span t.span)]
        | Option.none => [])
      ++ (match left.getSpan with
        | some s => [(LabelStyle.secondary, Location.span s)]
        | Option.none => [])
      ++ (match right.getSpan with
        | some s => [(LabelStyle.primary, Location.span s)]
        | Option.none => [])
    .error ⟨.invalidOperand, labels⟩

/-- `visit_literal_expr`'s 12-way match from `Value` variant to the
intrinsic `Known` data type. -/
def literalDataType : Value → DataType
  | .uint8 _ => .known .uint8
  | .uint16 _ => .known .uint16
  | .uint32 _ => .known .uint32
  | .uint64 _ => .known .uint64
  | .int8 _ => .known .int8
  | .int16 _ => .known .int16
  | .int32 _ => .known .int32
  | .int64 _ => .known .int64
  | .int _ => .known .int
  | .uint _ => .known .uint
  | .float32 _ => .known .float32
  | .double _ => .known .double

mutual

/-- `SemanticChecker::visit_expression` (with `visit_literal_expr`,
`visit_grouping_expr`, `visit_unary_expr`, `visit_binary_expr` inlined as
its match arms).  Grouping passes the inner annotated expression through
unchanged — no `Group` node is built. -/
def visitExpression : Expression →
    Except SemanticCheckerError AnnotatedExpression
  | .literal value token =>
    .ok (.literal value token (literalDataType value))
  | .grouping _ expression _ => visitExpression expression
  | .unary operator operatorToken right =>
    match visitExpression right with
    | .error e => .error e
    | .ok rightAnnotated =>
      match operator with
      | .negate =>
        match check_unary_negate_operands operatorToken right
            rightAnnotated.get_data_type with
        | .error e => .error e
        | .ok dataType =>
          .ok (.unary operator operatorToken rightAnnotated dataType)
  | .binary left operator operatorToken right =>
    match visitExpression left with
    | .error e => .error e
    | .ok leftAnnotated =>
      match visitExpression right with
      | .error e => .error e
      | .ok rightAnnotated =>
        -- all six binary operators take the arithmetic-operand check
        match check_binary_arithmetic_operands operatorToken left right
            leftAnnotated.get_data_type rightAnnotated.get_data_type with
        | .error e => .error e
        | .ok dataType =>
          .ok (.binary leftAnnotated operator operatorToken rightAnnotated
            dataType)

/-- `SemanticChecker::visit_statement` (with the per-kind visitors
inlined); statements carry no type of their own. -/
def visitStatement : Statement →
    Except SemanticCheckerError AnnotatedStatement
  | .expression expr =>
    match visitExpression expr with
    | .error e => .error e
    | .ok a => .ok (.expression a Option.none)
  | .echo echoToken expr =>
    match visitExpression expr with
    | .error e => .error e
    | .ok a => .ok (.echo echoToken a Option.none)
  | .functionDecl functionToken name leftParenToken parameters
      rightParenToken body =>
    match visitStatementList body with
    | .error e => .error e
    | .ok body' =>
      .ok (.functionDecl functionToken name leftParenToken parameters
        rightParenToken body' Option.none)

/-- The statement-list recursion of `visit_function_decl_stmt` /
`visit_module`. -/
def visitStatementList : List Statement →
    Except SemanticCheckerError (List AnnotatedStatement)
  | [] => .ok []
  | s :: rest =>
    match visitStatement s with
    | .error e => .error e
    | .ok a =>
      match visitStatementList rest with
      | .error e => .error e
      | .ok rest' => .ok (a :: rest')

end

/-- `SemanticChecker::check` (via `visit_module`). -/
def SemanticChecker.check (module : Module) :
    Except SemanticCheckerError AnnotatedModule :=
  match visitStatementList module.statements with
  | .error e => .error e
  | .ok statements => .ok ⟨statements⟩

/-! ## Pipeline helpers for stating concrete end-to-end facts -/

/-- The token list of a successful tokenize (empty on failure); concrete
theorems pair uses of this with the fact that the tokenize succeeded. -/
def lexedTokens (gs : List String) : List Token :=
  match tokenize gs with
  | .ok ts => ts
  | _ => []

/-- The module of a successful non-main-module parse (empty on failure);
concrete theorems pair uses of this with the fact that the parse
succeeded. -/
def parsedModule (gs : List String) : Module :=
  match Parser.parse (lexedTokens gs) false with
  | .ok m => m
  | _ => ⟨[]⟩

/-! ## Tree shapes

Node-kind skeletons of the raw and annotated trees, for stating that the
checker's output mirrors its input.  `degroup*` removes grouping nodes
from a shape, replacing each by its inner shape. -/

/-- Expression-tree shape: one constructor per expression node kind. -/
inductive ExprShape where
  | lit
  | group (inner : ExprShape)
  | un (inner : ExprShape)
  | bin (left right : ExprShape)
deriving DecidableEq, Repr

/-- Statement-tree shape: one constructor per statement node kind. -/
inductive StmtShape where
  | exprStmt (e : ExprShape)
  | echoStmt (e : ExprShape)
  | funcStmt (body : List StmtShape)

/-- Shape of a raw expression. -/
def rawExprShape : Expression → ExprShape
  | .literal _ _ => .lit
  | .grouping _ e _ => .group (rawExprShape e)
  | .unary _ _ right => .un (rawExprShape right)
  | .binary left _ _ right => .bin (rawExprShape left) (rawExprShape right)

/-- Shape of an annotated expression. -/
def annExprShape : AnnotatedExpression → ExprShape
  | .literal _ _ _ => .lit
  | .group _ e _ _ => .group (annExprShape e)
  | .unary _ _ right _ => .un (annExprShape right)
  | .binary left _ _ right _ =>
    .bin (annExprShape left) (annExprShape right)

mutual

/-- Shape of a raw statement. -/
def rawStmtShape : Statement → StmtShape
  | .expression e => .exprStmt (rawExprShape e)
  | .echo _ e => .echoStmt (rawExprShape e)
  | .functionDecl _ _ _ _ _ body => .funcStmt (rawStmtShapeList body)

/-- Shapes of a raw statement list. -/
def rawStmtShapeList : List Statement → List StmtShape
  | [] => []
  | s :: rest => rawStmtShape s :: rawStmtShapeList rest

end

mutual

/-- Shape of an annotated statement. -/
def annStmtShape : AnnotatedStatement → StmtShape
  | .expression e _ => .exprStmt (annExprShape e)
  | .echo _ e _ => .echoStmt (annExprShape e)
  | .functionDecl _ _ _ _ _ body _ => .funcStmt (annStmtShapeList body)

/-- Shapes of an annotated statement list. -/
def annStmtShapeList : List AnnotatedStatement → List StmtShape
  | [] => []
  | s :: rest => annStmtShape s :: annStmtShapeList rest

end

/-- Remove grouping nodes from an expression shape. -/
def degroupExpr : ExprShape → ExprShape
  | .lit => .lit
  | .group inner => degroupExpr inner
  | .un inner => .un (degroupExpr inner)
  | .bin l r => .bin (degroupExpr l) (degroupExpr r)

mutual

/-- Remove grouping nodes from a statement shape. -/
def degroupStmt : StmtShape → StmtShape
  | .exprStmt e => .exprStmt (degroupExpr e)
  | .echoStmt e => .echoStmt (degroupExpr e)
  | .funcStmt body => .funcStmt (degroupStmtList body)

/-- Remove grouping nodes from a statement-shape list. -/
def degroupStmtList : List StmtShape → List StmtShape
  | [] => []
  | s :: rest => degroupStmt s :: degroupStmtList rest

end

/-- Number of grouping nodes in an expression shape. -/
def ExprShape.groupCount : ExprShape → Nat
  | .lit => 0
  | .group inner => inner.groupCount + 1
  | .un inner => inner.groupCount
  | .bin l r => l.groupCount + r.groupCount

mutual

/-- Number of grouping nodes in a statement shape. -/
def StmtShape.groupCount : StmtShape → Nat
  | .exprStmt e => e.groupCount
  | .echoStmt e => e.groupCount
  | .funcStmt body => StmtShape.groupCountList body

/-- Number of grouping nodes in a statement-shape list. -/
def StmtShape.groupCountList : List StmtShape → Nat
  | [] => 0
  | s :: rest => s.groupCount + StmtShape.groupCountList rest

end

/-- Shape of a raw module. -/
def rawModuleShape (m : Module) : List StmtShape :=
  rawStmtShapeList m.statements

/-- Shape of an annotated module. -/
def annModuleShape (am : AnnotatedModule) : List StmtShape :=
  annStmtShapeList am.statements

/-- A token's lexeme is exactly the source byte substring covered by its
span. -/
def lexemeMatchesSpan (src : List Nat) (t : Token) : Prop :=
  t.lexeme = slice src t.span.start.offset t.span.«end».offset

/-! ## Shape preservation of the semantic checker (helper lemmas) -/

theorem visitExpression_shape (e : Expression) :
    ∀ a, visitExpression e = .ok a →
      annExprShape a = degroupExpr (rawExprShape e) := by
  induction e with
  | literal v tok =>
    intro a h
    simp only [visitExpression] at h
    cases h
    rfl
  | grouping lp e rp ih =>
    intro a h
    simp only [visitExpression] at h
    exact ih a h
  | unary op opTok right ih =>
    intro a h
    simp only [visitExpression] at h
    cases hr : visitExpression right with
    | error e0 => rw [hr] at h; simp only [] at h; exact Except.noConfusion h
    | ok r =>
      rw [hr] at h
      simp only [] at h
      cases op
      cases hc : check_unary_negate_operands opTok right r.get_data_type with
      | error e0 =>
        rw [hc] at h; simp only [] at h; exact Except.noConfusion h
      | ok dt =>
        rw [hc] at h
        simp only [] at h
        cases h
        simp only [annExprShape, rawExprShape, degroupExpr]
        exact congrArg ExprShape.un (ih r hr)
  | binary left op opTok right ihl ihr =>
    intro a h
    simp only [visitExpression] at h
    cases hl : visitExpression left with
    | error e0 => rw [hl] at h; simp only [] at h; exact Except.noConfusion h
    | ok la =>
      rw [hl] at h
      simp only [] at h
      cases hr : visitExpression right with
      | error e0 =>
        rw [hr] at h; simp only [] at h; exact Except.noConfusion h
      | ok ra =>
        rw [hr] at h
        simp only [] at h
        cases hc : check_binary_arithmetic_operands opTok left right
            la.get_data_type ra.get_data_type with
        | error e0 =>
          rw [hc] at h; simp only [] at h; exact Except.noConfusion h
        | ok dt =>
          rw [hc] at h
          simp only [] at h
          cases h
          simp only [annExprShape, rawExprShape, degroupExpr]
          rw [ihl la hl, ihr ra hr]

mutual

theorem visitStatement_shape (s : Statement) :
    ∀ a, visitStatement s = .ok a →
      annStmtShape a = degroupStmt (rawStmtShape s) := by
  cases s with
  | expression e =>
    intro a h
    simp only [visitStatement] at h
    cases he : visitExpression e with
    | error e0 => rw [he] at h; simp only [] at h; exact Except.noConfusion h
    | ok ea =>
      rw [he] at h
      simp only [] at h
      cases h
      simp only [annStmtShape, rawStmtShape, degroupStmt]
      exact congrArg StmtShape.exprStmt (visitExpression_shape e ea he)
  | echo tok e =>
    intro a h
    simp only [visitStatement] at h
    cases he : visitExpression e with
    | error e0 => rw [he] at h; simp only [] at h; exact Except.noConfusion h
    | ok ea =>
      rw [he] at h
      simp only [] at h
      cases h
      simp only [annStmtShape, rawStmtShape, degroupStmt]
      exact congrArg StmtShape.echoStmt (visitExpression_shape e ea he)
  | functionDecl ft n lp ps rp body =>
    intro a h
    simp only [visitStatement] at h
    cases hb : visitStatementList body with
    | error e0 => rw [hb] at h; simp only [] at h; exact Except.noConfusion h
    | ok ba =>
      rw [hb] at h
      simp only [] at h
      cases h
      simp only [annStmtShape, rawStmtShape, degroupStmt]
      exact congrArg StmtShape.funcStmt (visitStatementList_shape body ba hb)

theorem visitStatementList_shape (ss : List Statement) :
    ∀ as, visitStatementList ss = .ok as →
      annStmtShapeList as = degroupStmtList (rawStmtShapeList ss) := by
  cases ss with
  | nil =>
    intro as h
    simp only [visitStatementList] at h
    cases h
    rfl
  | cons s rest =>
    intro as h
    simp only [visitStatementList] at h
    cases hs : visitStatement s with
    | error e0 => rw [hs] at h; simp only [] at h; exact Except.noConfusion h
    | ok a =>
      rw [hs] at h
      simp only [] at h
      cases hrest : visitStatementList rest with
      | error e0 =>
        rw [hrest] at h; simp only [] at h; exact Except.noConfusion h
      | ok rest' =>
        rw [hrest] at h
        simp only [] at h
        cases h
        simp only [annStmtShapeList, rawStmtShapeList, degroupStmtList]
        rw [visitStatement_shape s a hs,
          visitStatementList_shape rest rest' hrest]

end

/-! ## Claim theorems -/

/-- C4: `can_implictly_cast_to(source, target)` is true exactly when both
are signed integers with `target` at least as wide, both unsigned with
`target` at least as wide, `source` an integer and `target` floating
point, or both floating point with `target` at least as wide; it is false
for every cross-signedness pair and whenever the source is user-defined. -/
theorem C4_can_implictly_cast_to_characterization :
    (∀ s t : DataType,
      DataType.can_implictly_cast_to s t = true ↔ castAllowedSpec s t)
    ∧ (∀ s t : DataType, s.is_signed_integer → t.is_unsigned_integer →
        DataType.can_implictly_cast_to s t = false)
    ∧ (∀ s t : DataType, s.is_unsigned_integer → t.is_signed_integer →
        DataType.can_implictly_cast_to s t = false)
    ∧ (∀ (name : String) (t : DataType),
        DataType.can_implictly_cast_to (.userDefined name) t = false) := by
  refine ⟨?_, ?_, ?_, ?_⟩
  · intro s t
    rcases s with k | n <;> rcases t with k' | n'
    · cases k <;> cases k' <;> decide
    · cases k <;>
        simp [DataType.can_implictly_cast_to, castAllowedSpec,
          DataType.is_signed_integer, DataType.is_unsigned_integer,
          DataType.is_floating_point, DataType.get_bit_size]
    · cases k' <;>
        simp [DataType.can_implictly_cast_to, castAllowedSpec,
          DataType.is_signed_integer, DataType.is_unsigned_integer,
          DataType.is_floating_point, DataType.get_bit_size]
    · simp [DataType.can_implictly_cast_to, castAllowedSpec,
        DataType.is_signed_integer, DataType.is_unsigned_integer,
        DataType.is_floating_point, DataType.get_bit_size]
  · intro s t
    rcases s with k | n <;> rcases t with k' | n' <;>
      first
        | (cases k <;> cases k' <;> decide)
        | simp [DataType.can_implictly_cast_to, DataType.is_signed_integer,
            DataType.is_unsigned_integer, DataType.is_floating_point]
  · intro s t
    rcases s with k | n <;> rcases t with k' | n' <;>
      first
        | (cases k <;> cases k' <;> decide)
        | simp [DataType.can_implictly_cast_to, DataType.is_signed_integer,
            DataType.is_unsigned_integer, DataType.is_floating_point]
  · intro name t
    simp [DataType.can_implictly_cast_to, DataType.is_signed_integer,
      DataType.is_unsigned_integer, DataType.is_floating_point]

/-- C5: `binary_expr_result_data_type(left, right)` returns `left` when
the types are the same `Known` kind, else `left` when `right` implicitly
casts to it, else `right` when `left` implicitly casts to it, else no
result; in particular `(UInt8, UInt32) ↦ Some UInt32` and
`(UInt8, Int8) ↦ None`. -/
theorem C5_binary_expr_result_data_type_characterization :
    (∀ l r : DataType,
      DataType.binary_expr_result_data_type l r = binaryResultSpec l r)
    ∧ DataType.binary_expr_result_data_type (.known .uint8) (.known .uint32)
      = some (.known .uint32)
    ∧ DataType.binary_expr_result_data_type (.known .uint8) (.known .int8)
      = none := by
  refine ⟨fun l r => rfl, by decide, by decide⟩

/-- C1 (code bug): the unary-negate legality condition
`!rhs.is_floating_point() || !rhs.is_signed_integer()` holds for every
type in the lattice, so `check_unary_negate_operands` rejects every
operand with `InvalidOperand` — including the signed-integer and
floating-point operands the claim (and the code's own comment, "only
signed integer and floating point are allowed") says must succeed with
the operand's type unchanged.  Second conjunct: the concrete failing
input, the negation of an `Int32` literal (source `-1i32`). -/
theorem C1_unary_negate_check_rejects_all_operand_types :
    (∀ (opTok : Option Token) (right : Expression) (rhs : DataType),
      ∃ e, check_unary_negate_operands opTok right rhs = .error e
        ∧ e.code = .invalidOperand)
    ∧ visitExpression (.unary .negate
        (some ⟨.subtractOrNegate, ⟨⟨1, 1, 0, 0⟩, ⟨1, 2, 1, 1⟩⟩, [45]⟩)
        (.literal (.int32 1)
          (some ⟨.literal (.integer ⟨.decimal, true⟩) (some ⟨1, 3, 2, 2⟩),
            ⟨⟨1, 2, 1, 1⟩, ⟨1, 6, 5, 5⟩⟩, [49, 105, 51, 50]⟩)))
      = .error ⟨.invalidOperand,
        [(.secondary, .span ⟨⟨1, 1, 0, 0⟩, ⟨1, 2, 1, 1⟩⟩),
         (.primary, .span ⟨⟨1, 2, 1, 1⟩, ⟨1, 6, 5, 5⟩⟩)]⟩ := by
  constructor
  · intro opTok right rhs
    have hcond : (!rhs.is_floating_point || !rhs.is_signed_integer) = true := by
      rcases rhs with k | n
      · cases k <;> rfl
      · rfl
    unfold check_unary_negate_operands
    rw [hcond]
    exact ⟨_, rfl, rfl⟩
  · rfl

/-- C3 counterexample: a module the checker accepts in which the raw tree
has one `GroupingExpr` node but the annotated tree has no `Group` node at
all — the grouping is not mirrored node-for-node. -/
theorem C3_grouping_not_mirrored_counterexample :
    SemanticChecker.check
        ⟨[.expression (.grouping Option.none
          (.literal (.int 1) Option.none) Option.none)]⟩
      = .ok ⟨[.expression
          (.literal (.int 1) Option.none (.known .int)) Option.none]⟩
    ∧ StmtShape.groupCountList (rawModuleShape
        ⟨[.expression (.grouping Option.none
          (.literal (.int 1) Option.none) Option.none)]⟩) = 1
    ∧ StmtShape.groupCountList (annModuleShape
        ⟨[.expression
          (.literal (.int 1) Option.none (.known .int)) Option.none]⟩)
      = 0 :=
  ⟨rfl, rfl, rfl⟩

/-- C3 (amended): for every module the semantic checker accepts, the
annotated tree's shape is the raw tree's shape with every `GroupingExpr`
node removed (replaced by its inner expression's annotated form); all
other raw nodes map to exactly one annotated node of corresponding kind. -/
theorem C3_annotated_tree_mirrors_raw_tree_modulo_grouping :
    ∀ (m : Module) (am : AnnotatedModule),
      SemanticChecker.check m = .ok am →
      annModuleShape am = degroupStmtList (rawModuleShape m) := by
  intro m am h
  simp only [SemanticChecker.check] at h
  cases hl : visitStatementList m.statements with
  | error e0 => rw [hl] at h; simp only [] at h; exact Except.noConfusion h
  | ok stmts =>
    rw [hl] at h
    simp only [] at h
    cases h
    exact visitStatementList_shape m.statements stmts hl

/-- C3 witness: the amended statement applied to a concrete accepted
module containing a grouping, an echo and a binary expression. -/
theorem C3_annotated_tree_mirrors_raw_tree_witness :
    SemanticChecker.check
        ⟨[.echo Option.none (.binary
          (.grouping Option.none (.literal (.int 1) Option.none) Option.none)
          .add Option.none (.literal (.int 2) Option.none))]⟩
      = .ok ⟨[.echo Option.none (.binary
          (.literal (.int 1) Option.none (.known .int)) .add Option.none
          (.literal (.int 2) Option.none (.known .int)) (.known .int))
          Option.none]⟩
    ∧ annModuleShape ⟨[.echo Option.none (.binary
          (.literal (.int 1) Option.none (.known .int)) .add Option.none
          (.literal (.int 2) Option.none (.known .int)) (.known .int))
          Option.none]⟩
      = degroupStmtList (rawModuleShape
          ⟨[.echo Option.none (.binary
            (.grouping Option.none (.literal (.int 1) Option.none)
              Option.none)
            .add Option.none (.literal (.int 2) Option.none))]⟩) :=
  ⟨rfl, C3_annotated_tree_mirrors_raw_tree_modulo_grouping _ _ rfl⟩

/-- C9: a no-suffix integer literal token whose numeric text parses
resolves to the platform-dependent `Value::Int`; a no-suffix float
literal token whose numeric text parses resolves to the 64-bit
`Value::Double` (the default suffix pair is `('f', 64)`), even though an
explicit bare `f` suffix parses to width 32.  Both conjuncts guard their
fallible `str::parse` with a parse-success hypothesis, since resolution
panics on an unparseable numeric text (e.g. the float token `1e`). -/
theorem C9_unsuffixed_literal_defaults :
    (∀ (tok : Token) (it : IntegerLiteralToken) (n : Nat),
      (it.base = NumberBase.decimal ∨ 2 ≤ tok.lexeme.length) →
      parseNatBytesLe
        (if it.base == NumberBase.decimal then tok.lexeme
         else tok.lexeme.drop 2) (2 ^ 64) = some n →
      n ≤ 9223372036854775807 →
      parseIntegerLiteralExpr tok it Option.none
        = .ok (.literal (.int n) (some tok)))
    ∧ (∀ (tok : Token) (ft : FloatLiteralToken),
        rustFloatParses tok.lexeme = true →
        parseFloatLiteralExpr tok ft Option.none
          = .ok (.literal (.double tok.lexeme) (some tok)))
    ∧ parseSuffixString (strBytes "f") = some (102, 32) := by
  refine ⟨?_, ?_, by decide⟩
  swap
  · intro tok ft hf
    simp only [parseFloatLiteralExpr]
    rw [if_pos hf]
  intro tok it n hlen h hn
  unfold parseIntegerLiteralExpr
  simp only [Option.map_none', Option.getD_none, lt_irrefl, if_false]
  rw [List.take_length]
  cases hb : (it.base == NumberBase.decimal) with
  | true =>
    simp only [hb, if_true] at h ⊢
    rw [h]
    simp [hn]
  | false =>
    have hlen2 : 2 ≤ tok.lexeme.length := by
      rcases hlen with hd | h2
      · rw [hd] at hb
        simp at hb
      · exact h2
    simp only [hb, Bool.false_eq_true, if_false] at h ⊢
    rw [if_neg (by omega : ¬ tok.lexeme.length < 2)]
    have h2 : parseNatBytesLe (List.drop 2 tok.lexeme) 18446744073709551616
        = some n := h
    simp [h2, hn]

/-- C9 witness: the no-suffix decimal token `1` resolves to
`Value::Int 1` and the no-suffix float token `1.5` resolves to
`Value::Double`, discharging each conjunct's hypotheses at a concrete
token. -/
theorem C9_unsuffixed_literal_defaults_witness :
    parseIntegerLiteralExpr
        ⟨.literal (.integer ⟨.decimal, true⟩) Option.none,
          ⟨⟨1, 1, 0, 0⟩, ⟨1, 2, 1, 1⟩⟩, [49]⟩
        ⟨.decimal, true⟩ Option.none
      = .ok (.literal (.int 1)
          (some ⟨.literal (.integer ⟨.decimal, true⟩) Option.none,
            ⟨⟨1, 1, 0, 0⟩, ⟨1, 2, 1, 1⟩⟩, [49]⟩))
    ∧ parseFloatLiteralExpr
        ⟨.literal (.float ⟨.decimal, false⟩) Option.none,
          ⟨⟨1, 1, 0, 0⟩, ⟨1, 4, 3, 3⟩⟩, [49, 46, 53]⟩
        ⟨.decimal, false⟩ Option.none
      = .ok (.literal (.double [49, 46, 53])
          (some ⟨.literal (.float ⟨.decimal, false⟩) Option.none,
            ⟨⟨1, 1, 0, 0⟩, ⟨1, 4, 3, 3⟩⟩, [49, 46, 53]⟩)) :=
  ⟨C9_unsuffixed_literal_defaults.1
    ⟨.literal (.integer ⟨.decimal, true⟩) Option.none,
      ⟨⟨1, 1, 0, 0⟩, ⟨1, 2, 1, 1⟩⟩, [49]⟩
    ⟨.decimal, true⟩ 1 (Or.inl rfl) (by decide) (by decide),
   C9_unsuffixed_literal_defaults.2.1
    ⟨.literal (.float ⟨.decimal, false⟩) Option.none,
      ⟨⟨1, 1, 0, 0⟩, ⟨1, 4, 3, 3⟩⟩, [49, 46, 53]⟩
    ⟨.decimal, false⟩ (by decide)⟩

/-- The fallible float parse is preserved by the model: the source `1e`
tokenizes successfully into an unsuffixed float literal token (exponent
marker with no digits) followed by `EndOfInput`, and its literal
resolution — hence the whole parse — panics, matching the program's
`"1e".parse::<f64>().unwrap()`. -/
theorem parse_panics_on_float_exponent_without_digits :
    tokenize ["1", "e"] = .ok (lexedTokens ["1", "e"])
    ∧ (lexedTokens ["1", "e"]).map Token.kind
      = [.literal (.float ⟨.decimal, true⟩) Option.none, .endOfInput]
    ∧ Parser.parse (lexedTokens ["1", "e"]) false = .panic :=
  ⟨by decide, by decide, rfl⟩

/-- C2 (code bug): the token sequence of the source `1 2` — two adjacent
integer literals, a successful tokenize ending in exactly one
`EndOfInput` — makes `parse` panic instead of returning a module or a
`ParserError`: the pratt loop matches the second literal (precedence
`Primary` ≥ `Term`) and `infix_rule.infix_fn.unwrap()` unwraps `None`. -/
theorem C2_parse_panics_on_adjacent_literal_tokens :
    tokenize ["1", " ", "2"] = .ok (lexedTokens ["1", " ", "2"])
    ∧ (lexedTokens ["1", " ", "2"]).map Token.kind
      = [.literal (.integer ⟨.decimal, true⟩) Option.none,
         .literal (.integer ⟨.decimal, true⟩) Option.none,
         .endOfInput]
    ∧ Parser.parse (lexedTokens ["1", " ", "2"]) false = .panic
    ∧ Parser.parse (lexedTokens ["1", " ", "2"]) true = .panic :=
  ⟨by decide, by decide, rfl, rfl⟩

/-- C6: `**` is right-associative — its parse rule carries `Right`
associativity, and parsing the token sequence of `2**3**2` produces the
right-nested `Binary(Exponent, 2, Binary(Exponent, 3, 2))`. -/
theorem C6_exponent_right_associativity :
    (getParseRule .exponent).associativity = .right
    ∧ tokenize ["2", "*", "*", "3", "*", "*", "2"]
      = .ok (lexedTokens ["2", "*", "*", "3", "*", "*", "2"])
    ∧ Parser.parse (lexedTokens ["2", "*", "*", "3", "*", "*", "2"]) false
      = .ok ⟨[.expression (.binary
          (.literal (.int 2)
            (some ⟨.literal (.integer ⟨.decimal, true⟩) Option.none,
              ⟨⟨1, 1, 0, 0⟩, ⟨1, 2, 1, 1⟩⟩, [50]⟩))
          .exponent
          (some ⟨.exponent, ⟨⟨1, 2, 1, 1⟩, ⟨1, 4, 3, 3⟩⟩, [42, 42]⟩)
          (.binary
            (.literal (.int 3)
              (some ⟨.literal (.integer ⟨.decimal, true⟩) Option.none,
                ⟨⟨1, 4, 3, 3⟩, ⟨1, 5, 4, 4⟩⟩, [51]⟩))
            .exponent
            (some ⟨.exponent, ⟨⟨1, 5, 4, 4⟩, ⟨1, 7, 6, 6⟩⟩, [42, 42]⟩)
            (.literal (.int 2)
              (some ⟨.literal (.integer ⟨.decimal, true⟩) Option.none,
                ⟨⟨1, 7, 6, 6⟩, ⟨1, 8, 7, 7⟩⟩, [50]⟩))))]⟩ :=
  ⟨rfl, by decide, rfl⟩

/-- C10: the float-literal path splits the lexeme at the suffix's
*absolute* source byte offset; on the token sequence of `0+1.5f` the
suffixed float literal starts at source offset 2 with recorded suffix
start offset 5, the slice `raw_number_lexeme[.. 5]` of a 4-byte lexeme is
out of range, and literal resolution (hence the whole parse) panics
instead of returning a `Result`. -/
theorem C10_float_suffix_split_uses_absolute_offset :
    tokenize ["0", "+", "1", ".", "5", "f"]
      = .ok (lexedTokens ["0", "+", "1", ".", "5", "f"])
    ∧ (lexedTokens ["0", "+", "1", ".", "5", "f"]).get? 2
      = some ⟨.literal (.float ⟨.decimal, false⟩) (some ⟨1, 6, 5, 5⟩),
          ⟨⟨1, 3, 2, 2⟩, ⟨1, 7, 6, 6⟩⟩, [49, 46, 53, 102]⟩
    ∧ parseFloatLiteralExpr
        ⟨.literal (.float ⟨.decimal, false⟩) (some ⟨1, 6, 5, 5⟩),
          ⟨⟨1, 3, 2, 2⟩, ⟨1, 7, 6, 6⟩⟩, [49, 46, 53, 102]⟩
        ⟨.decimal, false⟩ (some ⟨1, 6, 5, 5⟩)
      = .panic
    ∧ Parser.parse (lexedTokens ["0", "+", "1", ".", "5", "f"]) false
      = .panic :=
  ⟨by decide, by decide, rfl, rfl⟩

/-- C7 counterexample: for the source of three spaces, the run of spaces
starts at column 1 and is *not* immediately followed by a newline (it is
followed by end of input), yet tokenize emits no `Whitespace` token — the
output is just the `EndOfInput` token. -/
theorem C7_trailing_run_at_line_start_counterexample :
    tokenize [" ", " ", " "]
      = .ok [⟨.endOfInput, ⟨⟨1, 1, 0, 0⟩, ⟨1, 4, 3, 3⟩⟩, [32, 32, 32]⟩]
    ∧ (lexedTokens [" ", " ", " "]).all
        (fun t => !(t.kind == TokenKind.whitespace)) = true :=
  ⟨by decide, by decide⟩

/-- C8 counterexample: for the source `1 + 2` the lexer scans the whole
source, but concatenating the produced tokens' lexemes gives the bytes of
`1+22` (the mid-line spaces are discarded, and the `EndOfInput` token
repeats the last token's lexeme), not the scanned source `1 + 2`. -/
theorem C8_lexeme_concat_counterexample :
    tokenize ["1", " ", "+", " ", "2"]
      = .ok (lexedTokens ["1", " ", "+", " ", "2"])
    ∧ ((lexedTokens ["1", " ", "+", " ", "2"]).map Token.lexeme).flatten
      = strBytes "1+22"
    ∧ sourceBytes ["1", " ", "+", " ", "2"] = strBytes "1 + 2"
    ∧ ((lexedTokens ["1", " ", "+", " ", "2"]).map Token.lexeme).flatten
      ≠ sourceBytes ["1", " ", "+", " ", "2"] :=
  ⟨by decide, by decide, by decide, by decide⟩

theorem consumeWhileEq_spec (tgt : String) (hnl : is_newline tgt = false) :
    ∀ (gs : List String) (p : Position),
      consumeWhileEq tgt gs p =
        (gs.drop ((gs.takeWhile (fun x => x == tgt)).length),
         ⟨p.line, p.column + (gs.takeWhile (fun x => x == tgt)).length,
          p.charIndex + (gs.takeWhile (fun x => x == tgt)).length,
          p.offset + (gs.takeWhile (fun x => x == tgt)).length * byteLen tgt⟩) := by
  intro gs
  induction gs with
  | nil =>
    intro p
    cases p
    simp [consumeWhileEq, List.takeWhile]
  | cons g gs ih =>
    intro p
    by_cases hg : g = tgt
    · subst hg
      have hbeq : (g == g) = true := by simp
      simp only [consumeWhileEq, List.takeWhile, hbeq, if_true]
      rw [ih]
      have hadv : advancePos g p =
          ⟨p.line, p.column + 1, p.charIndex + 1, p.offset + byteLen g⟩ := by
        simp [advancePos, hnl]
      rw [hadv]
      cases p
      simp only [List.length_cons, Prod.mk.injEq, Position.mk.injEq]
      exact ⟨by simp, trivial, by ring, by ring, by ring⟩
    · have hbeq : (g == tgt) = false := by
        simp [hg]
      simp [consumeWhileEq, List.takeWhile, hbeq]

/-- C7 (amended): after skipping skipable graphemes, when the lexer is
positioned at a run of spaces (resp. tabs), `scan_token` consumes exactly
the maximal run and emits a `Whitespace` (resp. `Tab`) token covering it
if and only if the run starts at column 1 *and* the grapheme right after
the run exists and is not a newline; every other such run is consumed
without producing a token (the outcome is `none`, never an error or a
panic).  The claim's "not immediately followed by a newline" is amended
to "immediately followed by a grapheme that is not a newline": at end of
input (`peek` is `None`) no token is emitted. -/
theorem C7_whitespace_tab_token_emission :
    ∀ (src : List Nat) (rest : List String) (cur : Position)
      (rest1 : List String) (cur1 : Position) (g : String) (k : Nat),
      skipSkipable rest cur = (rest1, cur1) →
      rest1.head? = some g →
      (g = " " ∨ g = "\t") →
      k = (rest1.takeWhile (fun x => x == g)).length →
      ∃ out,
        scanToken src rest cur
          = .ok (out, rest1.drop k, cur1,
              ⟨cur1.line, cur1.column + k, cur1.charIndex + k,
               cur1.offset + k⟩)
        ∧ (out = some (newToken src cur1
              ⟨cur1.line, cur1.column + k, cur1.charIndex + k,
               cur1.offset + k⟩
              (if g = " " then TokenKind.whitespace else TokenKind.tab))
            ↔ (cur1.column = 1
               ∧ ∃ h, rest1[k]? = some h ∧ is_newline h = false))
        ∧ (out = Option.none
            ∨ out = some (newToken src cur1
                ⟨cur1.line, cur1.column + k, cur1.charIndex + k,
                 cur1.offset + k⟩
                (if g = " " then TokenKind.whitespace
                 else TokenKind.tab))) := by
  intro src rest cur rest1 cur1 g k hskip hhead hg hk
  obtain ⟨rest2, hrest1⟩ : ∃ r2, rest1 = g :: r2 := by
    cases rest1 with
    | nil => exact absurd hhead (by simp)
    | cons a r =>
      have ha : a = g := by simpa using hhead
      exact ⟨r, by rw [ha]⟩
  subst hrest1
  subst hk
  rcases hg with hg | hg
  · subst hg
    unfold scanToken
    rw [hskip]
    simp only []
    norm_num
    rw [if_neg (by decide : ¬ (isXidStartChar ' ' = true)),
      if_neg (by decide : ¬ (charIsDigit 10 ' ' = true)),
      if_neg (by decide : ¬ (" " = "+")), if_neg (by decide : ¬ (" " = "-")),
      if_neg (by decide : ¬ (" " = "*")), if_neg (by decide : ¬ (" " = "/")),
      if_neg (by decide : ¬ (" " = "%")), if_neg (by decide : ¬ (" " = "(")),
      if_neg (by decide : ¬ (" " = ")")), if_neg (by decide : ¬ (" " = ";")),
      if_neg (by decide : ¬ (" " = ":"))]
    rw [consumeWhileEq_spec " " rfl rest2 (advancePos " " cur1)]
    have hadv : advancePos " " cur1
        = ⟨cur1.line, cur1.column + 1, cur1.charIndex + 1, cur1.offset + 1⟩ := by
      simp [advancePos, show is_newline " " = false from rfl,
        show byteLen " " = 1 from rfl]
    rw [hadv]
    simp only []
    set K := (List.takeWhile (fun x => x == " ") rest2).length with hK
    have hpos : (⟨cur1.line, cur1.column + 1 + K, cur1.charIndex + 1 + K,
        cur1.offset + 1 + K * byteLen " "⟩ : Position)
        = ⟨cur1.line, cur1.column + (K + 1), cur1.charIndex + (K + 1),
           cur1.offset + (K + 1)⟩ := by
      rw [show byteLen " " = 1 from rfl]
      congr 1 <;> omega
    rw [hpos]
    have hhd : (rest2.drop K).head? = rest2[K]? := List.head?_drop rest2 K
    have hcond : (cur1.column = 1
        ∧ (match (rest2.drop K).head? with
            | some x => !is_newline x
            | Option.none => false) = true)
        ↔ (cur1.column = 1 ∧ ∃ h, rest2[K]? = some h ∧ is_newline h = false) := by
      apply and_congr_right
      intro _
      rw [hhd]
      cases hx : rest2[K]? with
      | none => simp
      | some x => simp
    by_cases hc : cur1.column = 1 ∧ ∃ h, rest2[K]? = some h ∧ is_newline h = false
    · rw [if_pos (hcond.mpr hc)]
      exact ⟨_, rfl, iff_of_true rfl hc, Or.inr rfl⟩
    · rw [if_neg (fun hx => hc (hcond.mp hx))]
      exact ⟨Option.none, rfl, iff_of_false (by simp) hc, Or.inl rfl⟩
  · subst hg
    unfold scanToken
    rw [hskip]
    simp only []
    norm_num
    rw [if_neg (by decide : ¬ (isXidStartChar '\t' = true)),
      if_neg (by decide : ¬ (charIsDigit 10 '\t' = true)),
      if_neg (by decide : ¬ ("\t" = "+")), if_neg (by decide : ¬ ("\t" = "-")),
      if_neg (by decide : ¬ ("\t" = "*")), if_neg (by decide : ¬ ("\t" = "/")),
      if_neg (by decide : ¬ ("\t" = "%")), if_neg (by decide : ¬ ("\t" = "(")),
      if_neg (by decide : ¬ ("\t" = ")")), if_neg (by decide : ¬ ("\t" = ";")),
      if_neg (by decide : ¬ ("\t" = ":")), if_neg (by decide : ¬ ("\t" = " "))]
    rw [consumeWhileEq_spec "\t" rfl rest2 (advancePos "\t" cur1)]
    have hadv : advancePos "\t" cur1
        = ⟨cur1.line, cur1.column + 1, cur1.charIndex + 1, cur1.offset + 1⟩ := by
      simp [advancePos, show is_newline "\t" = false from rfl,
        show byteLen "\t" = 1 from rfl]
    rw [hadv]
    simp only []
    set K := (List.takeWhile (fun x => x == "\t") rest2).length with hK
    have hpos : (⟨cur1.line, cur1.column + 1 + K, cur1.charIndex + 1 + K,
        cur1.offset + 1 + K * byteLen "\t"⟩ : Position)
        = ⟨cur1.line, cur1.column + (K + 1), cur1.charIndex + (K + 1),
           cur1.offset + (K + 1)⟩ := by
      rw [show byteLen "\t" = 1 from rfl]
      congr 1 <;> omega
    rw [hpos]
    have hhd : (rest2.drop K).head? = rest2[K]? := List.head?_drop rest2 K
    have hcond : (cur1.column = 1
        ∧ (match (rest2.drop K).head? with
            | some x => !is_newline x
            | Option.none => false) = true)
        ↔ (cur1.column = 1 ∧ ∃ h, rest2[K]? = some h ∧ is_newline h = false) := by
      apply and_congr_right
      intro _
      rw [hhd]
      cases hx : rest2[K]? with
      | none => simp
      | some x => simp
    by_cases hc : cur1.column = 1 ∧ ∃ h, rest2[K]? = some h ∧ is_newline h = false
    · rw [if_pos (hcond.mpr hc)]
      exact ⟨_, rfl, iff_of_true rfl hc, Or.inr rfl⟩
    · rw [if_neg (fun hx => hc (hcond.mp hx))]
      exact ⟨Option.none, rfl, iff_of_false (by simp) hc, Or.inl rfl⟩

theorem consumeNumber_lexeme (src : List Nat) (start : Position)
    (base : NumberBase) (rest : List String) (cur : Position)
    (t : Token) (r : List String) (s2 c2 : Position)
    (h : consumeNumber src start base rest cur = .ok (some t, r, s2, c2)) :
    lexemeMatchesSpan src t := by
  simp only [consumeNumber] at h
  repeat' split at h
  all_goals
    first
      | exact Outcome.noConfusion h
      | (simp only [Outcome.ok.injEq, Prod.mk.injEq, Option.some.injEq] at h
         obtain ⟨h1, -⟩ := h
         subst h1
         rfl)

theorem createNumberToken_lexeme (src : List Nat) (start : Position)
    (c : String) (rest : List String) (cur : Position)
    (t : Token) (r : List String) (s2 c2 : Position)
    (h : createNumberToken src start c rest cur = .ok (some t, r, s2, c2)) :
    lexemeMatchesSpan src t := by
  simp only [createNumberToken] at h
  repeat' split at h
  all_goals exact consumeNumber_lexeme _ _ _ _ _ _ _ _ _ h

theorem createReserved_lexeme (src : List Nat) (start : Position)
    (rest : List String) (cur : Position)
    (t : Token) (r : List String) (s2 c2 : Position)
    (h : createReservedOrIdentifierToken src start rest cur
      = .ok (some t, r, s2, c2)) :
    lexemeMatchesSpan src t := by
  simp only [createReservedOrIdentifierToken] at h
  repeat' split at h
  all_goals
    first
      | exact Outcome.noConfusion h
      | (simp only [Outcome.ok.injEq, Prod.mk.injEq, Option.some.injEq] at h
         obtain ⟨h1, -⟩ := h
         subst h1
         rfl)

theorem scanToken_lexeme (src : List Nat) (rest : List String)
    (cur : Position)
    (t : Token) (r : List String) (s2 c2 : Position)
    (h : scanToken src rest cur = .ok (some t, r, s2, c2)) :
    lexemeMatchesSpan src t := by
  rcases hpair : skipSkipable rest cur with ⟨rest1, cur1⟩
  simp only [scanToken, hpair] at h
  cases rest1 with
  | nil => exact Outcome.noConfusion h
  | cons c rest2 =>
    simp only [] at h
    by_cases hA : c.data.all isXidStartChar = true
    · rw [if_pos hA] at h
      exact createReserved_lexeme _ _ _ _ _ _ _ _ h
    · rw [if_neg hA] at h
      by_cases hB : c.data.all (charIsDigit 10) = true
      · rw [if_pos hB] at h
        exact createNumberToken_lexeme _ _ _ _ _ _ _ _ _ h
      · rw [if_neg hB] at h
        by_cases hC : (c == "+") = true
        · rw [if_pos hC] at h
          simp only [Outcome.ok.injEq, Prod.mk.injEq, Option.some.injEq] at h
          obtain ⟨hv, -⟩ := h
          subst hv
          rfl
        · rw [if_neg hC] at h
          by_cases hD : (c == "-") = true
          · rw [if_pos hD] at h
            simp only [Outcome.ok.injEq, Prod.mk.injEq, Option.some.injEq] at h
            obtain ⟨hv, -⟩ := h
            subst hv
            rfl
          · rw [if_neg hD] at h
            by_cases hE : (c == "*") = true
            · rw [if_pos hE] at h
              cases rest2 with
              | nil =>
                simp only [] at h
                simp only [Outcome.ok.injEq, Prod.mk.injEq, Option.some.injEq] at h
                obtain ⟨hv, -⟩ := h
                subst hv
                rfl
              | cons g gs =>
                simp only [] at h
                by_cases hF : (g == "*") = true
                · rw [if_pos hF] at h
                  simp only [Outcome.ok.injEq, Prod.mk.injEq, Option.some.injEq] at h
                  obtain ⟨hv, -⟩ := h
                  subst hv
                  rfl
                · rw [if_neg hF] at h
                  simp only [Outcome.ok.injEq, Prod.mk.injEq, Option.some.injEq] at h
                  obtain ⟨hv, -⟩ := h
                  subst hv
                  rfl
            · rw [if_neg hE] at h
              by_cases hG : (c == "/") = true
              · rw [if_pos hG] at h
                cases rest2 with
                | nil =>
                  simp only [] at h
                  simp only [Outcome.ok.injEq, Prod.mk.injEq, Option.some.injEq] at h
                  obtain ⟨hv, -⟩ := h
                  subst hv
                  rfl
                | cons g gs =>
                  simp only [] at h
                  by_cases hH : (g == "/") = true
                  · rw [if_pos hH] at h
                    simp only [Outcome.ok.injEq, Prod.mk.injEq, Option.some.injEq] at h
                    obtain ⟨hv, -⟩ := h
                    subst hv
                    rfl
                  · rw [if_neg hH] at h
                    simp only [Outcome.ok.injEq, Prod.mk.injEq, Option.some.injEq] at h
                    obtain ⟨hv, -⟩ := h
                    subst hv
                    rfl
              · rw [if_neg hG] at h
                by_cases hI : (c == "%") = true
                · rw [if_pos hI] at h
                  simp only [Outcome.ok.injEq, Prod.mk.injEq, Option.some.injEq] at h
                  obtain ⟨hv, -⟩ := h
                  subst hv
                  rfl
                · rw [if_neg hI] at h
                  by_cases hJ : (c == "(") = true
                  · rw [if_pos hJ] at h
                    simp only [Outcome.ok.injEq, Prod.mk.injEq, Option.some.injEq] at h
                    obtain ⟨hv, -⟩ := h
                    subst hv
                    rfl
                  · rw [if_neg hJ] at h
                    by_cases hK : (c == ")") = true
                    · rw [if_pos hK] at h
                      simp only [Outcome.ok.injEq, Prod.mk.injEq, Option.some.injEq] at h
                      obtain ⟨hv, -⟩ := h
                      subst hv
                      rfl
                    · rw [if_neg hK] at h
                      by_cases hL : (c == ";") = true
                      · rw [if_pos hL] at h
                        simp only [Outcome.ok.injEq, Prod.mk.injEq, Option.some.injEq] at h
                        obtain ⟨hv, -⟩ := h
                        subst hv
                        rfl
                      · rw [if_neg hL] at h
                        by_cases hM : (c == ":") = true
                        · rw [if_pos hM] at h
                          simp only [Outcome.ok.injEq, Prod.mk.injEq, Option.some.injEq] at h
                          obtain ⟨hv, -⟩ := h
                          subst hv
                          rfl
                        · rw [if_neg hM] at h
                          by_cases hN : (c == " ") = true
                          · rw [if_pos hN] at h
                            split at h
                            · simp only [Outcome.ok.injEq, Prod.mk.injEq, Option.some.injEq] at h
                              obtain ⟨hv, -⟩ := h
                              subst hv
                              rfl
                            · simp at h
                          · rw [if_neg hN] at h
                            by_cases hO : (c == "\t") = true
                            · rw [if_pos hO] at h
                              split at h
                              · simp only [Outcome.ok.injEq, Prod.mk.injEq, Option.some.injEq] at h
                                obtain ⟨hv, -⟩ := h
                                subst hv
                                rfl
                              · simp at h
                            · rw [if_neg hO] at h
                              by_cases hP : is_newline c = true
                              · rw [if_pos hP] at h
                                simp only [Outcome.ok.injEq, Prod.mk.injEq, Option.some.injEq] at h
                                obtain ⟨hv, -⟩ := h
                                subst hv
                                rfl
                              · rw [if_neg hP] at h
                                exact Outcome.noConfusion h

theorem tokenizeLoop_lexeme (src : List Nat) :
    ∀ (fuel : Nat) (rest : List String) (start cur : Position)
      (ts : List Token),
      tokenizeLoop src fuel rest start cur = .ok ts →
      ∀ t ∈ ts, lexemeMatchesSpan src t := by
  intro fuel
  induction fuel with
  | zero =>
    intro rest start cur ts h
    exact Outcome.noConfusion h
  | succ fuel ih =>
    intro rest start cur ts h
    cases rest with
    | nil =>
      simp only [tokenizeLoop] at h
      cases h
      intro t ht
      rcases List.mem_singleton.mp ht with rfl
      rfl
    | cons g gs =>
      simp only [tokenizeLoop] at h
      cases hs : scanToken src (g :: gs) cur with
      | ok res =>
        obtain ⟨optTok, rest', start', cur'⟩ := res
        rw [hs] at h
        cases optTok with
        | some tk =>
          simp only [] at h
          cases hloop : tokenizeLoop src fuel rest' start' cur' with
          | ok ts' =>
            rw [hloop] at h
            simp only [] at h
            cases h
            intro t ht
            rcases List.mem_cons.mp ht with h1 | h2
            · subst h1
              exact scanToken_lexeme _ _ _ _ _ _ _ hs
            · exact ih _ _ _ _ hloop t h2
          | err e =>
            rw [hloop] at h; simp only [] at h; exact Outcome.noConfusion h
          | panic =>
            rw [hloop] at h; simp only [] at h; exact Outcome.noConfusion h
          | outOfFuel =>
            rw [hloop] at h; simp only [] at h; exact Outcome.noConfusion h
        | none =>
          simp only [] at h
          exact ih _ _ _ _ h
      | err e =>
        rw [hs] at h; simp only [] at h; exact Outcome.noConfusion h
      | panic =>
        rw [hs] at h; simp only [] at h; exact Outcome.noConfusion h
      | outOfFuel =>
        rw [hs] at h; simp only [] at h; exact Outcome.noConfusion h

/-- C8 (amended): every token of a successful tokenize has its lexeme
exactly equal to the source byte substring from `span.start.offset` to
`span.end.offset`; consequently concatenating the lexemes reproduces the
concatenation of the token-covered byte ranges of the source — not the
whole scanned source, from which skipped and discarded runs are missing. -/
theorem C8_lexeme_equals_span_substring :
    ∀ (gs : List String) (ts : List Token),
      tokenize gs = .ok ts →
      (∀ t ∈ ts, t.lexeme
        = slice (sourceBytes gs) t.span.start.offset t.span.«end».offset)
      ∧ (ts.map Token.lexeme).flatten
        = (ts.map (fun t =>
            slice (sourceBytes gs) t.span.start.offset
              t.span.«end».offset)).flatten := by
  intro gs ts h
  have hP := tokenizeLoop_lexeme (sourceBytes gs) _ _ _ _ _ h
  refine ⟨hP, ?_⟩
  have hmap : ts.map Token.lexeme
      = ts.map (fun t =>
          slice (sourceBytes gs) t.span.start.offset t.span.«end».offset) :=
    List.map_congr_left hP
  rw [hmap]

/-- C7 witness: the amended characterization applied to the source
`␣␣1` — a two-space run at column 1 followed by `1`, hence emitted. -/
theorem C7_whitespace_tab_token_emission_witness :
    ∃ out,
      scanToken (sourceBytes [" ", " ", "1"]) [" ", " ", "1"] Position.start
        = .ok (out, [" ", " ", "1"].drop 2, Position.start,
            ⟨Position.start.line, Position.start.column + 2,
             Position.start.charIndex + 2, Position.start.offset + 2⟩)
      ∧ (out = some (newToken (sourceBytes [" ", " ", "1"]) Position.start
            ⟨Position.start.line, Position.start.column + 2,
             Position.start.charIndex + 2, Position.start.offset + 2⟩
            (if " " = " " then TokenKind.whitespace else TokenKind.tab))
          ↔ (Position.start.column = 1
             ∧ ∃ h, [" ", " ", "1"][2]? = some h ∧ is_newline h = false))
      ∧ (out = Option.none
          ∨ out = some (newToken (sourceBytes [" ", " ", "1"]) Position.start
              ⟨Position.start.line, Position.start.column + 2,
               Position.start.charIndex + 2, Position.start.offset + 2⟩
              (if " " = " " then TokenKind.whitespace
               else TokenKind.tab))) :=
  C7_whitespace_tab_token_emission (sourceBytes [" ", " ", "1"])
    [" ", " ", "1"] Position.start [" ", " ", "1"] Position.start " " 2
    (by decide) (by decide) (Or.inl rfl) (by decide)

/-- C8 witness: the amended statement applied to the token sequence of
the source `1+2`. -/
theorem C8_lexeme_equals_span_substring_witness :
    (∀ t ∈ lexedTokens ["1", "+", "2"], t.lexeme
      = slice (sourceBytes ["1", "+", "2"]) t.span.start.offset
          t.span.«end».offset)
    ∧ ((lexedTokens ["1", "+", "2"]).map Token.lexeme).flatten
      = ((lexedTokens ["1", "+", "2"]).map (fun t =>
          slice (sourceBytes ["1", "+", "2"]) t.span.start.offset
            t.span.«end».offset)).flatten :=
  C8_lexeme_equals_span_substring ["1", "+", "2"]
    (lexedTokens ["1", "+", "2"]) (by decide)

end Mabel

